import Mathlib

/-!
Verification of the Glow Wizard MVP backend core against its specification.

The JavaScript sources (profile-processor.js, data-validator.js,
photo-analyzer.js, server.js) are shallowly embedded below.  JavaScript
runtime values are modelled by the inductive type `JSValue`; JavaScript
numbers are embedded as integers (`Int`), with `NaN` as a separate
constructor (floating point fractions are outside the scope of this
embedding).  External collaborators (the `validator` library's URL
grammar, the network probe performed by axios) are abstracted as function
parameters.  Functions that can throw are embedded in `Except String`.
-/

/-! ## JavaScript value model -/

/-- A JavaScript runtime value.  Numbers are embedded as integers plus a
separate `nan` constructor; objects are association lists of own
properties. -/
inductive JSValue where
  | undefined
  | null
  | bool (b : Bool)
  | num (n : Int)
  | nan
  | str (s : String)
  | arr (elems : List JSValue)
  | obj (fields : List (String × JSValue))
deriving Repr

/-- The JavaScript `typeof` operator (note `typeof null === "object"`). -/
def typeOf : JSValue → String
  | .undefined => "undefined"
  | .null => "object"
  | .bool _ => "boolean"
  | .num _ => "number"
  | .nan => "number"
  | .str _ => "string"
  | .arr _ => "object"
  | .obj _ => "object"

/-- JavaScript truthiness: `undefined`, `null`, `false`, `0`, `NaN` and the
empty string are falsy; every object and array is truthy. -/
def truthy : JSValue → Bool
  | .undefined => false
  | .null => false
  | .bool b => b
  | .num n => n != 0
  | .nan => false
  | .str s => s != ""
  | .arr _ => true
  | .obj _ => true

/-- Character for a decimal digit value below ten. -/
def digitChar (d : Nat) : Char := Char.ofNat (48 + d)

/-- Decimal digits of a natural number, most significant first,
accumulator style.  The recursion is structural on a fuel bound; any fuel
greater than `n` is exact, and `natRepr` passes `n + 1`. -/
def natReprAux : Nat → Nat → List Char → List Char
  | 0, _, acc => acc
  | fuel + 1, n, acc =>
    if n < 10 then digitChar n :: acc
    else natReprAux fuel (n / 10) (digitChar (n % 10) :: acc)

/-- Decimal representation of a natural number. -/
def natRepr (n : Nat) : String := String.mk (natReprAux (n + 1) n [])

/-- JavaScript `Number.prototype.toString` on an integral magnitude:
decimal digits below 10^21, and exponential notation at 10^21 and above
(`String(1e21) === "1e+21"`), as ECMA-262 ToString switches to at that
threshold.  The mantissa is the digit string with trailing zeros
stripped, with a dot after its first digit when more digits remain. -/
def jsNumRepr (m : Nat) : String :=
  if m < 1000000000000000000000 then natRepr m
  else
    let ds := natReprAux (m + 1) m []
    let sig := (ds.reverse.dropWhile fun c => c = '0').reverse
    String.mk (sig.take 1) ++
    (if 1 < sig.length then "." ++ String.mk (sig.drop 1) else "") ++
    "e+" ++ natRepr (ds.length - 1)

/-- JavaScript `Number..toString()` restricted to integral values. -/
def intRepr (n : Int) : String :=
  if n < 0 then "-" ++ jsNumRepr (-n).toNat else jsNumRepr n.toNat

mutual

/-- JavaScript `ToString` conversion (the conversion applied by template
literals, `parseInt`/`parseFloat`, and `.toString()` on non-nullish
values).  Numbers print in decimal below 10^21 and in exponential
notation from 10^21 on; arrays print as the comma-join of their elements
with `null` and `undefined` elements printing as empty strings; plain
objects print as `[object Object]`. -/
def jsToString : JSValue → String
  | .undefined => "undefined"
  | .null => "null"
  | .bool b => if b then "true" else "false"
  | .num n => intRepr n
  | .nan => "NaN"
  | .str s => s
  | .arr xs => String.intercalate "," (arrElemStrings xs)
  | .obj _ => "[object Object]"

/-- Element strings used by `Array.prototype.toString` (a comma join where
nullish elements become empty strings). -/
def arrElemStrings : List JSValue → List String
  | [] => []
  | v :: vs =>
    (match v with
     | JSValue.null => ""
     | JSValue.undefined => ""
     | w => jsToString w) :: arrElemStrings vs

end

/-- ASCII lower-casing of one character (the fragment of
`String.prototype.toLowerCase` relevant to this code base). -/
def lowerChar (c : Char) : Char :=
  if 65 ≤ c.toNat ∧ c.toNat ≤ 90 then Char.ofNat (c.toNat + 32) else c

/-- ASCII lower-casing of a string, modelling `.toLowerCase()`. -/
def jsToLower (s : String) : String := String.mk (s.data.map lowerChar)

/-- Whitespace trimming at both ends, modelling `.trim()`. -/
def jsTrim (s : String) : String :=
  String.mk (((s.data.dropWhile fun c => c.isWhitespace).reverse.dropWhile
    fun c => c.isWhitespace).reverse)

/-- Numeric value of a list of decimal digit characters. -/
def digitsVal (ds : List Char) : Nat :=
  ds.foldl (fun acc c => acc * 10 + (c.toNat - 48)) 0

/-- Leading whitespace removal used by `parseInt` / `parseFloat`. -/
def dropLeadingWs (cs : List Char) : List Char :=
  cs.dropWhile fun c => c.isWhitespace

/-- Optional sign prefix used by `parseInt` / `parseFloat`. -/
def readSign : List Char → Int × List Char
  | '-' :: rest => (-1, rest)
  | '+' :: rest => (1, rest)
  | cs => (1, cs)

/-- JavaScript `parseInt(s, 10)` on an already-stringified argument:
skip whitespace, read an optional sign, then a maximal run of decimal
digits; `none` models `NaN` (no digits). -/
def parseIntStr (s : String) : Option Int :=
  let cs := dropLeadingWs s.data
  let sc := readSign cs
  let digits := sc.2.takeWhile Char.isDigit
  if digits.isEmpty then none else some (sc.1 * (digitsVal digits : Int))

/-- JavaScript `parseFloat` on an already-stringified argument.  Numbers
are embedded as integers, so the value is the integer part; the fractional
digits only contribute to deciding success (`"x.5"` parses, `"x"` alone
does not). -/
def parseFloatStr (s : String) : Option Int :=
  let cs := dropLeadingWs s.data
  let sc := readSign cs
  let intPart := sc.2.takeWhile Char.isDigit
  let rest := sc.2.dropWhile Char.isDigit
  let fracPart : List Char :=
    match rest with
    | '.' :: r => r.takeWhile Char.isDigit
    | _ => []
  if intPart.isEmpty ∧ fracPart.isEmpty then none
  else some (sc.1 * (digitsVal intPart : Int))

/-- First binding of a key in an object's own-property list. -/
def lookupField : List (String × JSValue) → String → Option JSValue
  | [], _ => none
  | kv :: rest, key => if kv.1 = key then some kv.2 else lookupField rest key

/-- JavaScript property read `v[k]` for the value shapes this code base
touches (objects, arrays with `length` and numeric indices, strings with
`length`); absent properties read as `undefined`. -/
def getProp : JSValue → String → JSValue
  | .obj fs, k => (lookupField fs k).getD .undefined
  | .arr xs, k =>
    if k = "length" then .num xs.length
    else
      match k.toNat? with
      | some i => (xs.get? i).getD .undefined
      | none => .undefined
  | .str s, k => if k = "length" then .num s.length else .undefined
  | _, _ => .undefined

/-- The JavaScript `in` operator for own properties of objects and the
index/`length` properties of arrays (the only shapes it is applied to in
this code base, always behind an object-type guard). -/
def hasKey : JSValue → String → Bool
  | .obj fs, k => (lookupField fs k).isSome
  | .arr xs, k =>
    if k = "length" then true
    else
      match k.toNat? with
      | some i => i < xs.length
      | none => false
  | _, _ => false

/-! ## profile-processor.js -/

/-- One entry of `requiredFields` in `validateProfileData`
(profile-processor.js).  Absent JS properties of the rule records are
modelled by `none` / `0` / `false` so that the source's truthiness and
`!== undefined` tests translate directly. -/
structure FieldRule where
  key : String
  type : String
  minLength : Nat := 0
  min : Option Int := none
  max : Option Int := none
  allowed : Option (List String) := none
  isArray : Bool := false

/-- The `requiredFields` rule table of `validateProfileData`. -/
def requiredFields : List FieldRule :=
  [ { key := "name", type := "string", minLength := 1 },
    { key := "age", type := "number", min := some 13, max := some 120 },
    { key := "skinType", type := "string",
      allowed := some ["dry", "oily", "combination", "normal", "sensitive"] },
    { key := "concerns", type := "object", isArray := true,
      allowed := some ["acne", "wrinkles", "redness", "dryness", "dark spots", "sensitivity"] },
    { key := "location", type := "string", minLength := 2 } ]

/-- Does `field.allowed.includes(v)` hold?  JS `includes` uses strict
equality, so only an identical string can match the allow-list. -/
def allowedIncludes (allowed : List String) : JSValue → Bool
  | .str s => allowed.contains s
  | _ => false

/-- The missing-field test of `validateProfileData`:
`value === undefined || value === null || (typeof value === 'string' && value.trim() === '')`. -/
def isMissingValue : JSValue → Bool
  | .undefined => true
  | .null => true
  | .str s => jsTrim s = ""
  | _ => false

/-- The error strings pushed for one field by the `for` loop body of
`validateProfileData`, in source order: missing check (with `continue`),
string-type check, number checks (range only in the `else` of the type
test), array checks, allowed-string check, and minimum-length check. -/
def checkField (field : FieldRule) (value : JSValue) : List String :=
  if isMissingValue value then
    ["Missing required field: " ++ field.key]
  else
    (if field.type = "string" ∧ typeOf value ≠ "string" then
      ["Field " ++ field.key ++ " must be a string."]
     else []) ++
    (if field.type = "number" then
      match value with
      | .num n =>
        (if h : field.min.isSome then
          (if n < field.min.get h then
            ["Field " ++ field.key ++ " must be at least " ++ intRepr (field.min.get h) ++ "."]
           else [])
         else []) ++
        (if h : field.max.isSome then
          (if n > field.max.get h then
            ["Field " ++ field.key ++ " must be at most " ++ intRepr (field.max.get h) ++ "."]
           else [])
         else [])
      | _ => ["Field " ++ field.key ++ " must be a number."]
     else []) ++
    (if field.type = "object" ∧ field.isArray then
      match value with
      | .arr elems =>
        match field.allowed with
        | some allowed =>
          let invalid := elems.filter fun v => ¬ allowedIncludes allowed v
          if invalid.length > 0 then
            ["Field " ++ field.key ++ " contains invalid values: " ++
              String.intercalate ", " (invalid.map jsToString) ++ "."]
          else []
        | none => []
      | _ => ["Field " ++ field.key ++ " must be an array."]
     else []) ++
    (match field.allowed with
     | some allowed =>
       if field.type = "string" ∧ ¬ allowedIncludes allowed value then
         ["Field " ++ field.key ++ " must be one of: " ++
           String.intercalate ", " allowed ++ "."]
       else []
     | none => []) ++
    (if field.minLength ≠ 0 then
      match value with
      | .str s => if s.length < field.minLength then
          ["Field " ++ field.key ++ " must be at least " ++ natRepr field.minLength ++
            " characters."]
        else []
      | _ => []
     else [])

/-- Result of `validateProfileData`: the JS function returns the literal
`true` on success and `{valid: false, errors}` on failure. -/
inductive ProfileValidation where
  | valid
  | invalid (errors : List String)
deriving Repr

/-- `validateProfileData` (profile-processor.js): non-object input
short-circuits; otherwise the per-field error lists accumulate in rule
order. -/
def validateProfileData (profileData : JSValue) : ProfileValidation :=
  if ¬ (truthy profileData = true ∧ typeOf profileData = "object") then
    .invalid ["Profile data must be an object."]
  else
    let errors := (requiredFields.map fun field =>
      checkField field (getProp profileData field.key)).flatten
    if errors.length > 0 then .invalid errors else .valid

/-- Entry contributed by `answers.hydration` (an integer parse whose `NaN`
result is replaced by `null`). -/
def hydrationEntry (answers : JSValue) : List (String × JSValue) :=
  if hasKey answers "hydration" then
    [("hydration",
      match parseIntStr (jsToString (getProp answers "hydration")) with
      | some n => JSValue.num n
      | none => JSValue.null)]
  else []

/-- Entry contributed by `answers.sunExposure`.  The source calls
`answers.sunExposure.toString().toLowerCase()` with no nullish guard, so a
present `null`/`undefined` value throws a `TypeError`. -/
def sunExposureEntry (answers : JSValue) : Except String (List (String × JSValue)) :=
  if hasKey answers "sunExposure" then
    match getProp answers "sunExposure" with
    | JSValue.null =>
      Except.error "TypeError: Cannot read properties of null (reading toString)"
    | JSValue.undefined =>
      Except.error "TypeError: Cannot read properties of undefined (reading toString)"
    | v => Except.ok [("sunExposure", JSValue.str (jsToLower (jsToString v)))]
  else Except.ok []

/-- Entry contributed by `answers.sleepHours` (a float parse whose `NaN`
result is replaced by `null`). -/
def sleepHoursEntry (answers : JSValue) : List (String × JSValue) :=
  if hasKey answers "sleepHours" then
    [("sleepHours",
      match parseFloatStr (jsToString (getProp answers "sleepHours")) with
      | some n => JSValue.num n
      | none => JSValue.null)]
  else []

/-- Entry contributed by `answers.stressLevel` (an integer parse whose
`NaN` result is replaced by `null`). -/
def stressLevelEntry (answers : JSValue) : List (String × JSValue) :=
  if hasKey answers "stressLevel" then
    [("stressLevel",
      match parseIntStr (jsToString (getProp answers "stressLevel")) with
      | some n => JSValue.num n
      | none => JSValue.null)]
  else []

/-- The final cleanup loop of `processQuestionnaireAnswers` deletes keys
holding `null` or `undefined`. -/
def keepEntry (kv : String × JSValue) : Bool :=
  match kv.2 with
  | JSValue.null => false
  | JSValue.undefined => false
  | _ => true

/-- `processQuestionnaireAnswers` (profile-processor.js): non-objects get
an error record; recognized keys are coerced in source order (hydration,
sunExposure, sleepHours, stressLevel); nullish coercion results are
deleted before returning.  The `sunExposure` branch can throw. -/
def processQuestionnaireAnswers (answers : JSValue) : Except String JSValue :=
  if ¬ (truthy answers = true ∧ typeOf answers = "object") then
    .ok (JSValue.obj [("error", JSValue.str "Answers must be an object.")])
  else
    match sunExposureEntry answers with
    | .error e => .error e
    | .ok se =>
      let entries :=
        hydrationEntry answers ++ se ++ sleepHoursEntry answers ++ stressLevelEntry answers
      .ok (JSValue.obj (entries.filter keepEntry))

/-! ## data-validator.js -/

/-- Is a string entirely ASCII alphanumeric (Joi's `alphanum`)? -/
def isAlphanumStr (s : String) : Bool :=
  s.data.all fun c => c.isAlpha || c.isDigit

/-- Does a JS value satisfy the Joi schema of `validateAPIRequest`
(data-validator.js)?  `userId`: required alphanumeric string of length
20–28; `skinType`: required member of a four-value enum; `concerns`:
required array of at most five strings of length at most 50; unknown keys
are rejected (Joi's default). -/
def apiRequestSchemaOk (data : JSValue) : Bool :=
  match data with
  | .obj fields =>
    (match lookupField fields "userId" with
     | some (.str s) => isAlphanumStr s && 20 ≤ s.length && s.length ≤ 28
     | _ => false) &&
    (match lookupField fields "skinType" with
     | some (.str s) => ["dry", "oily", "combination", "sensitive"].contains s
     | _ => false) &&
    (match lookupField fields "concerns" with
     | some (.arr xs) =>
       xs.length ≤ 5 &&
       xs.all fun x => match x with | .str s => s.length ≤ 50 | _ => false
     | _ => false) &&
    fields.all fun kv => ["userId", "skinType", "concerns"].contains kv.1
  | _ => false

/-- `validateAPIRequest` (data-validator.js) returns
`schema.validate(data)`, which is always the Joi result **object**
`{value, error}` — `error` is `undefined` exactly when validation
succeeded, but the result itself is an object in every case. -/
def validateAPIRequest (data : JSValue) : JSValue :=
  JSValue.obj
    [("value", data),
     ("error",
       if apiRequestSchemaOk data then JSValue.undefined
       else JSValue.obj [("name", JSValue.str "ValidationError")])]

/-! ## photo-analyzer.js: URL validation -/

/-- Does `needle` occur at the head of `hay`? -/
def matchesAt : List Char → List Char → Bool
  | [], _ => true
  | _ :: _, [] => false
  | c :: cs, d :: ds => c = d && matchesAt cs ds

/-- Substring occurrence test over character lists. -/
def containsSub (hay needle : List Char) : Bool :=
  match hay with
  | [] => needle.isEmpty
  | _ :: rest => matchesAt needle hay || containsSub rest needle

/-- JavaScript `hay.includes(needle)` on strings. -/
def strIncludes (hay needle : String) : Bool := containsSub hay.data needle.data

/-- JavaScript `s.startsWith(pre)` on strings. -/
def strStartsWith (s pre : String) : Bool := matchesAt pre.data s.data

/-- `detectImageFormat` (photo-analyzer.js): case-insensitive substring
tests, in source order png, webp, jpeg, jpg. -/
def detectImageFormat (url : String) : String :=
  let urlLowerCase := jsToLower url
  if strIncludes urlLowerCase ".png" then "PNG"
  else if strIncludes urlLowerCase ".webp" then "WebP"
  else if strIncludes urlLowerCase ".jpeg" then "JPEG"
  else if strIncludes urlLowerCase ".jpg" then "JPEG"
  else "UNKNOWN"

/-- An entry of `validatedUrls` built by `validatePhotoUrls`, also the
per-photo input shape of `formatPhotosForAI`. -/
structure ValidatedPhoto where
  originalUrl : String
  index : Nat
  format : String
deriving Repr

/-- An entry of the `errors` list built by `validatePhotoUrls`. -/
structure UrlError where
  index : Nat
  error : String
  message : String
deriving Repr

/-- The result object of `validatePhotoUrls`; fields that a given return
site omits are `none`. -/
structure PhotoUrlsResult where
  success : Bool
  error : Option String
  message : String
  validatedUrls : Option (List ValidatedPhoto)
  errors : Option (List UrlError)
deriving Repr

/-- The supported-extension allow-list of `validatePhotoUrls`. -/
def supportedFormats : List String := [".jpg", ".jpeg", ".png", ".webp"]

/-- The body of the `forEach` in `validatePhotoUrls` for one URL at a
given index, parameterised by the external `validator.isURL` grammar. -/
def validatePhotoUrlAt (isURL : String → Bool) (index : Nat) (url : JSValue) :
    Except UrlError ValidatedPhoto :=
  match url with
  | .str s =>
    if jsTrim s = "" then
      .error { index, error := "INVALID_URL_FORMAT",
               message := "Photo " ++ natRepr (index + 1) ++ ": URL must be a non-empty string" }
    else
      let trimmedUrl := jsTrim s
      if ¬ isURL trimmedUrl then
        .error { index, error := "MALFORMED_URL",
                 message := "Photo " ++ natRepr (index + 1) ++ ": URL format is invalid" }
      else
        let urlLowerCase := jsToLower trimmedUrl
        if ¬ supportedFormats.any (fun format => strIncludes urlLowerCase format) then
          .error { index, error := "UNSUPPORTED_FORMAT",
                   message := "Photo " ++ natRepr (index + 1) ++
                     ": Must be JPG, JPEG, PNG, or WebP format" }
        else
          .ok { originalUrl := trimmedUrl, index, format := detectImageFormat trimmedUrl }
  | _ =>
    .error { index, error := "INVALID_URL_FORMAT",
             message := "Photo " ++ natRepr (index + 1) ++ ": URL must be a non-empty string" }

/-- The `forEach` of `validatePhotoUrls`: accumulate validated URLs and
errors over the list, keeping both in input order. -/
def validateUrlsLoop (isURL : String → Bool) (index : Nat) :
    List JSValue → List ValidatedPhoto × List UrlError
  | [] => ([], [])
  | u :: us =>
    let rest := validateUrlsLoop isURL (index + 1) us
    match validatePhotoUrlAt isURL index u with
    | .ok v => (v :: rest.1, rest.2)
    | .error e => (rest.1, e :: rest.2)

/-- `validatePhotoUrls` (photo-analyzer.js), parameterised by the external
`validator.isURL` grammar.  Non-arrays, empty arrays, and arrays of more
than five elements are rejected before any element is inspected. -/
def validatePhotoUrls (isURL : String → Bool) (photoUrls : JSValue) : PhotoUrlsResult :=
  match photoUrls with
  | .arr urls =>
    if urls.length = 0 then
      { success := false, error := some "EMPTY_ARRAY",
        message := "At least one photo URL must be provided",
        validatedUrls := none, errors := none }
    else if urls.length > 5 then
      { success := false, error := some "TOO_MANY_PHOTOS",
        message := "Maximum of 5 photos allowed per analysis",
        validatedUrls := none, errors := none }
    else
      let results := validateUrlsLoop isURL 0 urls
      if results.2.length > 0 then
        { success := false, error := some "VALIDATION_FAILED",
          message := natRepr results.2.length ++ " of " ++ natRepr urls.length ++
            " photos failed validation",
          validatedUrls := some results.1, errors := some results.2 }
      else
        { success := true, error := none,
          message := "All " ++ natRepr urls.length ++ " photos validated successfully",
          validatedUrls := some results.1, errors := none }
  | _ =>
    { success := false, error := some "INVALID_INPUT",
      message := "Photo URLs must be provided as an array",
      validatedUrls := none, errors := none }

/-! ## photo-analyzer.js: metadata estimation -/

/-- The dimensions record produced by `estimateDimensions`. -/
structure Dimensions where
  width : Int
  height : Int
  aspectRatio : String
  estimated : Bool
deriving Repr

/-- Exact-integer computation of `Math.round(Math.sqrt(p / 3))` for the
estimated pixel count `p = fileSize * compressionRatio` (real-valued
square root and rounding, evaluated without floating point). -/
def roundedSqrtOfThird (p : Int) : Int :=
  let m : Nat := Nat.sqrt (p.toNat / 3)
  if 4 * p < 3 * (2 * (m : Int) + 1) ^ 2 then (m : Int) else (m : Int) + 1

/-- `estimateDimensions` (photo-analyzer.js): the compression ratio is
initialised to 10 and reassigned by the `switch`; the estimated pixel
count is `fileSize * compressionRatio / 3` and both sides of the
reported square are the rounded square root of it. -/
def estimateDimensions (fileSize : Int) (format : String) : Dimensions :=
  let compressionRatio : Int :=
    if format = "PNG" then 6
    else if format = "WebP" then 12
    else if format = "JPEG" then 10
    else 10
  let estimatedSide := roundedSqrtOfThird (fileSize * compressionRatio)
  { width := estimatedSide, height := estimatedSide,
    aspectRatio := "1.00", estimated := true }

/-- The quality record produced by `assessImageQuality`. -/
structure Quality where
  score : Int
  issues : List String
  suitable : Bool
deriving Repr

/-- JavaScript `<` between a number that may be `NaN` (modelled `none`)
and a constant: every comparison against `NaN` is false. -/
def jsLt (a : Option Int) (b : Int) : Bool :=
  match a with
  | some n => n < b
  | none => false

/-- JavaScript `>` between a number that may be `NaN` (modelled `none`)
and a constant: every comparison against `NaN` is false. -/
def jsGt (a : Option Int) (b : Int) : Bool :=
  match a with
  | some n => n > b
  | none => false

/-- The metadata record assembled by `extractPhotoMetadata` before quality
assessment.  `fileSize` is the parsed `content-length` header; `none`
models `NaN` (an unparseable header). -/
structure PhotoMetadata where
  url : String
  contentType : String
  fileSize : Option Int
  lastModified : Option String
  format : String
  timestamp : String
  dimensions : Option Dimensions
deriving Repr

/-- `assessImageQuality` (photo-analyzer.js): the score and issue list are
accumulated in source order (file-size check, dimension check, format
check); `suitable` is decided from the accumulated score **before** the
`+50` offset and clamp are applied to the reported score. -/
def assessImageQuality (metadata : PhotoMetadata) : Quality :=
  let s0 : Int := 0
  let i0 : List String := []
  let s1 := if jsLt metadata.fileSize 100000 then s0 - 10
    else if jsGt metadata.fileSize 5000000 then s0 - 5
    else s0 + 20
  let i1 := if jsLt metadata.fileSize 100000 then
      i0 ++ ["File size may be too small for detailed analysis"]
    else if jsGt metadata.fileSize 5000000 then
      i0 ++ ["File size is very large, may affect processing speed"]
    else i0
  let s2 := match metadata.dimensions with
    | some d =>
      if d.width < 300 ∨ d.height < 300 then s1 - 15
      else if d.width ≥ 800 ∧ d.height ≥ 600 then s1 + 25
      else s1 + 15
    | none => s1
  let i2 := match metadata.dimensions with
    | some d =>
      if d.width < 300 ∨ d.height < 300 then
        i1 ++ ["Image resolution may be too low for accurate analysis"]
      else i1
    | none => i1
  let s3 := if metadata.format = "JPEG" ∨ metadata.format = "PNG" then s2 + 10
    else if metadata.format = "WebP" then s2 + 5
    else s2 - 10
  let i3 := if metadata.format = "JPEG" ∨ metadata.format = "PNG" then i2
    else if metadata.format = "WebP" then i2
    else i2 ++ ["Image format may not be optimal for analysis"]
  { score := max 0 (min 100 (s3 + 50)),
    issues := i3,
    suitable := decide (s3 ≥ 30) && decide (i3.length < 3) }

/-! ## photo-analyzer.js: accessibility probe and per-photo pipeline -/

/-- The headers of an HTTP HEAD response, as raw strings the way axios
exposes them. -/
structure HeadHeaders where
  contentType : Option String
  contentLength : Option String
  lastModified : Option String
  etag : Option String
deriving Repr

/-- Outcome of one axios HEAD request: a 2xx response with headers, a
timeout (`ECONNABORTED`), a non-2xx response (`error.response`), or any
other network error.  This is the abstraction of the external network. -/
inductive HttpOutcome where
  | resp (headers : HeadHeaders)
  | econnaborted
  | httpError (status : Nat) (statusText : String)
  | netError (message : String)
deriving Repr

/-- The external network, as a pure map from URL to probe outcome. -/
def Probe := String → HttpOutcome

/-- Result of `verifyPhotoAccessibility`: the accessible record carries
the content type, the parsed `content-length` (with `none` for `NaN`) and
the pass-through headers; the inaccessible record carries the typed error
and message. -/
inductive AccessResult where
  | accessible (contentType : String) (contentLength : Option Int)
      (lastModified : Option String) (etag : Option String)
  | inaccessible (error : String) (message : String)
deriving Repr

/-- `verifyPhotoAccessibility` (photo-analyzer.js).  Throws raised inside
the `try` (bad content type, empty file, out-of-range size) are caught by
the function's own `catch`, whose generic branch labels them
`NETWORK_ERROR`; axios timeouts and HTTP error responses get their own
labels. -/
def verifyPhotoAccessibility (probe : Probe) (photoUrl : String) : AccessResult :=
  match probe photoUrl with
  | .econnaborted =>
    .inaccessible "TIMEOUT" "Photo accessibility check timed out"
  | .httpError status statusText =>
    .inaccessible "HTTP_ERROR" ("HTTP " ++ natRepr status ++ ": " ++ statusText)
  | .netError message => .inaccessible "NETWORK_ERROR" message
  | .resp headers =>
    let ctOk : Bool := match headers.contentType with
      | some s => s ≠ "" && strStartsWith s "image/"
      | none => false
    if ¬ ctOk then
      .inaccessible "NETWORK_ERROR"
        ("Invalid content type: " ++
          (match headers.contentType with | some s => s | none => "undefined"))
    else
      let contentLength := parseIntStr
        (match headers.contentLength with
         | some s => if s = "" then "0" else s
         | none => "0")
      if contentLength = some 0 then
        .inaccessible "NETWORK_ERROR" "Image file appears to be empty"
      else if jsLt contentLength 1024 ∨ jsGt contentLength (10 * 1024 * 1024) then
        .inaccessible "NETWORK_ERROR"
          ("Image file size out of range: " ++
            (match contentLength with | some n => intRepr n | none => "NaN") ++ " bytes")
      else
        .accessible (headers.contentType.getD "") contentLength
          headers.lastModified headers.etag

/-- Result of `extractPhotoMetadata`: the metadata together with its
quality assessment, or the failure record. -/
inductive MetadataResult where
  | ok (metadata : PhotoMetadata) (quality : Quality)
  | failed (error : String) (message : String) (url : String)
deriving Repr

/-- `extractPhotoMetadata` (photo-analyzer.js): an inaccessible photo
turns into a `METADATA_EXTRACTION_FAILED` record; otherwise dimensions
are estimated when both `contentLength` and `contentType` are truthy, and
quality is assessed on the assembled metadata. -/
def extractPhotoMetadata (probe : Probe) (now : String) (photoUrl : String) :
    MetadataResult :=
  match verifyPhotoAccessibility probe photoUrl with
  | .inaccessible _ message =>
    .failed "METADATA_EXTRACTION_FAILED" ("Photo not accessible: " ++ message) photoUrl
  | .accessible contentType contentLength lastModified _ =>
    let format := detectImageFormat photoUrl
    let dimensions :=
      if ((match contentLength with | some n => n != 0 | none => false) &&
          contentType ≠ "" : Bool) then
        some (estimateDimensions (contentLength.getD 0) format)
      else none
    let metadata : PhotoMetadata :=
      { url := photoUrl, contentType, fileSize := contentLength,
        lastModified, format, timestamp := now, dimensions }
    .ok metadata (assessImageQuality metadata)

/-- One element of the `formattedPhotos` list built by
`formatPhotosForAI`. -/
structure FormattedPhoto where
  id : String
  url : String
  type : String
  format : String
  quality : Quality
  dimensions : Option Dimensions
  fileSize : Option Int
  contentType : String
  aiCompatible : Bool
  processingNotes : List String
deriving Repr

/-- One element of the `processingErrors` list built by
`formatPhotosForAI`. -/
structure ProcessingError where
  url : String
  error : String
  message : String
deriving Repr

/-- The summary record built by `formatPhotosForAI`. -/
structure PhotoSummary where
  totalPhotos : Nat
  processedPhotos : Nat
  failedPhotos : Nat
  aiCompatiblePhotos : Nat
  averageQuality : Int
  recommendedForAnalysis : Nat
deriving Repr

/-- Exact-integer computation of `Math.round(a / n)` for nonnegative
score sums: round-half-up is the floor of `(2a + n) / (2n)`. -/
def jsMathRoundDiv (a : Int) (n : Nat) : Int := Int.fdiv (2 * a + n) (2 * n)

/-- The formatted photo built for one successfully extracted metadata
record, with processing notes appended in source order. -/
def formatOnePhoto (nowMs : Nat) (photo : ValidatedPhoto)
    (metadata : PhotoMetadata) (quality : Quality) : FormattedPhoto :=
  { id := "photo_" ++ natRepr nowMs ++ "_" ++ natRepr photo.index,
    url := photo.originalUrl,
    type := "image_url",
    format := metadata.format,
    quality := quality,
    dimensions := metadata.dimensions,
    fileSize := metadata.fileSize,
    contentType := metadata.contentType,
    aiCompatible := quality.suitable,
    processingNotes :=
      (if quality.score < 50 then ["Low quality image - analysis may be limited"] else []) ++
      (if quality.issues.length > 0 then quality.issues else []) }

/-- The `for` loop of `formatPhotosForAI`: each photo's metadata
extraction either appends a formatted photo or appends a processing
error, in input order, without aborting the remaining photos. -/
def processPhotosLoop (probe : Probe) (now : String) (nowMs : Nat) :
    List ValidatedPhoto → List FormattedPhoto × List ProcessingError
  | [] => ([], [])
  | photo :: rest =>
    let tail := processPhotosLoop probe now nowMs rest
    match extractPhotoMetadata probe now photo.originalUrl with
    | .ok metadata quality =>
      (formatOnePhoto nowMs photo metadata quality :: tail.1, tail.2)
    | .failed error message _ =>
      (tail.1, { url := photo.originalUrl, error, message } :: tail.2)

/-- The summary computed by `formatPhotosForAI`; the average quality is
`Math.round` of the mean score over processed photos, or 0 when none
were processed. -/
def summarizePhotos (total : Nat) (formattedPhotos : List FormattedPhoto)
    (processingErrors : List ProcessingError) : PhotoSummary :=
  { totalPhotos := total,
    processedPhotos := formattedPhotos.length,
    failedPhotos := processingErrors.length,
    aiCompatiblePhotos := (formattedPhotos.filter fun p => p.aiCompatible).length,
    averageQuality :=
      if formattedPhotos.length > 0 then
        jsMathRoundDiv ((formattedPhotos.map fun p => p.quality.score).sum)
          formattedPhotos.length
      else 0,
    recommendedForAnalysis :=
      (formattedPhotos.filter fun p =>
        p.aiCompatible && decide (p.quality.score ≥ 60)).length }

/-- The two return shapes of `formatPhotosForAI`. -/
inductive FormatPhotosResult where
  | invalidInput (error : String) (message : String)
  | ok (photos : List FormattedPhoto) (summary : PhotoSummary)
      (processingErrors : Option (List ProcessingError))
      (timestamp : String) (readyForAI : Bool)
deriving Repr

/-- `formatPhotosForAI` (photo-analyzer.js), with the wall clock passed in
(`now` for ISO timestamps, `nowMs` for `Date.now()` photo ids).  The
input is a Lean list, so only the source's emptiness test of the
`INVALID_INPUT` guard is representable. -/
def formatPhotosForAI (probe : Probe) (now : String) (nowMs : Nat)
    (validatedPhotos : List ValidatedPhoto) : FormatPhotosResult :=
  if validatedPhotos.length = 0 then
    .invalidInput "INVALID_INPUT" "Validated photos array is required"
  else
    let results := processPhotosLoop probe now nowMs validatedPhotos
    let summary := summarizePhotos validatedPhotos.length results.1 results.2
    .ok results.1 summary
      (if results.2.length > 0 then some results.2 else none)
      now
      (decide (summary.recommendedForAnalysis > 0))

/-! ## server.js: the /apirecommendations route -/

/-- Observable outcome of one authenticated `/apirecommendations`
request, cut off at the external recommendation collaborator: either an
HTTP response is sent without calling it, or `generateRecommendations`
is invoked with the assembled payload. -/
inductive RouteResult where
  | response (status : Nat) (body : JSValue)
  | externalCall (profileData : JSValue) (processedAnswers : JSValue)
      (validatedPhotos : PhotoUrlsResult)
deriving Repr

/-- The validation middleware plus handler of `POST /apirecommendations`
(server.js): the middleware tests the truthiness of
`validateAPIRequest(req.body)` — the Joi result object — and otherwise
sends 400; the handler processes answers and photos and then always
reaches the external `generateRecommendations` call, with a thrown
`TypeError` caught as a 500. -/
def apiRecommendationsRoute (isURL : String → Bool) (body : JSValue) : RouteResult :=
  if truthy (validateAPIRequest body) then
    match processQuestionnaireAnswers (getProp body "questionnaireAnswers") with
    | .error _ => .response 500 (JSValue.obj [("error", JSValue.str "INTERNAL_ERROR")])
    | .ok processedProfile =>
      .externalCall (getProp body "profileData") processedProfile
        (validatePhotoUrls isURL (getProp body "photos"))
  else
    .response 400 (JSValue.obj [("error", JSValue.str "INVALID_REQUEST")])

/-! ## General helper lemmas -/

theorem char_toNat_ofNat {n : Nat} (h : n < 55296) : (Char.ofNat n).toNat = n := by
  unfold Char.ofNat
  rw [dif_pos (Or.inl h)]
  rfl

theorem lowerChar_idem (c : Char) : lowerChar (lowerChar c) = lowerChar c := by
  unfold lowerChar
  by_cases h : 65 ≤ c.toNat ∧ c.toNat ≤ 90
  · have ht : (Char.ofNat (c.toNat + 32)).toNat = c.toNat + 32 :=
      char_toNat_ofNat (by omega)
    simp only [if_pos h, ht]
    rw [if_neg (by omega)]
  · simp only [if_neg h]

theorem jsToLower_idem (s : String) : jsToLower (jsToLower s) = jsToLower s := by
  unfold jsToLower
  simp [List.map_map, Function.comp_def, lowerChar_idem]

theorem digitChar_shape {d : Nat} (h : d < 10) :
    (digitChar d).isDigit = true ∧ (digitChar d).isWhitespace = false ∧
    digitChar d ≠ '-' ∧ digitChar d ≠ '+' ∧ (digitChar d).toNat = 48 + d := by
  interval_cases d <;> exact ⟨by decide, by decide, by decide, by decide, by decide⟩


theorem natReprAux_lt {n : Nat} (h : n < 10) (fuel : Nat) (acc : List Char) :
    natReprAux (fuel + 1) n acc = digitChar n :: acc := by
  simp [natReprAux, h]

theorem natReprAux_ge {n : Nat} (h : ¬ n < 10) (fuel : Nat) (acc : List Char) :
    natReprAux (fuel + 1) n acc = natReprAux fuel (n / 10) (digitChar (n % 10) :: acc) := by
  simp [natReprAux, h]

theorem natReprAux_spec : ∀ (fuel n : Nat), n < fuel → ∀ acc,
    natReprAux fuel n acc = natReprAux fuel n [] ++ acc := by
  intro fuel
  induction fuel with
  | zero =>
    intro n h
    omega
  | succ g ih =>
    intro n h acc
    by_cases h10 : n < 10
    · rw [natReprAux_lt h10, natReprAux_lt h10]
      simp
    · have hrec : n / 10 < g := by omega
      rw [natReprAux_ge h10, natReprAux_ge h10,
        ih (n / 10) hrec (digitChar (n % 10) :: acc), ih (n / 10) hrec [digitChar (n % 10)]]
      simp

theorem natReprAux_digits : ∀ (fuel n : Nat), n < fuel →
    natReprAux fuel n [] ≠ [] ∧
    (∀ c ∈ natReprAux fuel n [], ∃ d, d < 10 ∧ c = digitChar d) ∧
    digitsVal (natReprAux fuel n []) = n := by
  intro fuel
  induction fuel with
  | zero =>
    intro n h
    omega
  | succ g ih =>
    intro n h
    by_cases h10 : n < 10
    · rw [natReprAux_lt h10]
      refine ⟨by simp, ?_, ?_⟩
      · intro c hc
        simp at hc
        exact ⟨n, h10, hc⟩
      · simp [digitsVal, (digitChar_shape h10).2.2.2.2]
    · have hrec : n / 10 < g := by omega
      obtain ⟨hne, hdig, hval⟩ := ih (n / 10) hrec
      rw [natReprAux_ge h10, natReprAux_spec g (n / 10) hrec]
      refine ⟨by simp [hne], ?_, ?_⟩
      · intro c hc
        rcases List.mem_append.mp hc with hc | hc
        · exact hdig c hc
        · simp at hc
          exact ⟨n % 10, by omega, hc⟩
      · unfold digitsVal
        rw [List.foldl_append]
        show digitsVal (natReprAux g (n / 10) []) * 10 + ((digitChar (n % 10)).toNat - 48) = n
        rw [hval, (digitChar_shape (show n % 10 < 10 by omega)).2.2.2.2]
        omega

theorem dropWhile_cons_of_neg {p : Char → Bool} {c : Char} {l : List Char}
    (h : p c = false) : (c :: l).dropWhile p = c :: l := by
  simp [List.dropWhile_cons, h]

theorem readSign_of_ne {c : Char} {t : List Char} (h1 : c ≠ '-') (h2 : c ≠ '+') :
    readSign (c :: t) = (1, c :: t) := by
  unfold readSign
  split
  · simp_all
  · simp_all
  · rfl

theorem parseIntStr_natRepr (m : Nat) : parseIntStr (natRepr m) = some m := by
  obtain ⟨hne, hdig, hval⟩ := natReprAux_digits (m + 1) m (Nat.lt_succ_self m)
  have hdata : (natRepr m).data = natReprAux (m + 1) m [] := rfl
  rcases hds : natReprAux (m + 1) m [] with _ | ⟨c, t⟩
  · exact absurd hds hne
  · obtain ⟨d, hd10, hcd⟩ := hdig c (by rw [hds]; exact List.mem_cons_self c t)
    obtain ⟨_, hws, hminus, hplus, _⟩ := digitChar_shape hd10
    have h1 : dropLeadingWs (c :: t) = c :: t :=
      dropWhile_cons_of_neg (by rw [hcd]; exact hws)
    have h2 : readSign (c :: t) = (1, c :: t) :=
      readSign_of_ne (by rw [hcd]; exact hminus) (by rw [hcd]; exact hplus)
    have h3 : (c :: t).takeWhile Char.isDigit = c :: t := by
      rw [List.takeWhile_eq_self_iff]
      intro x hx
      obtain ⟨e, he10, hxe⟩ := hdig x (by rw [hds]; exact hx)
      rw [hxe]
      exact (digitChar_shape he10).1
    simp only [parseIntStr, hdata, hds, h1, h2, h3]
    rw [if_neg (by simp)]
    rw [show c :: t = natReprAux (m + 1) m [] from hds.symm, hval]
    simp

theorem parseIntStr_intRepr (n : Int) (hb : n.natAbs < 1000000000000000000000) :
    parseIntStr (intRepr n) = some n := by
  unfold intRepr
  by_cases h : n < 0
  · rw [if_pos h]
    rw [show jsNumRepr (-n).toNat = natRepr (-n).toNat by
      unfold jsNumRepr
      rw [if_pos (by omega)]]
    obtain ⟨hne, hdig, hval⟩ := natReprAux_digits ((-n).toNat + 1) (-n).toNat (Nat.lt_succ_self _)
    have hdata : ("-" ++ natRepr (-n).toNat).data = '-' :: natReprAux ((-n).toNat + 1) (-n).toNat [] := by
      rw [String.data_append]
      rfl
    have h1 : dropLeadingWs ('-' :: natReprAux ((-n).toNat + 1) (-n).toNat []) =
        '-' :: natReprAux ((-n).toNat + 1) (-n).toNat [] :=
      dropWhile_cons_of_neg (by decide)
    have h2 : readSign ('-' :: natReprAux ((-n).toNat + 1) (-n).toNat []) =
        (-1, natReprAux ((-n).toNat + 1) (-n).toNat []) := rfl
    have h3 : (natReprAux ((-n).toNat + 1) (-n).toNat []).takeWhile Char.isDigit =
        natReprAux ((-n).toNat + 1) (-n).toNat [] := by
      rw [List.takeWhile_eq_self_iff]
      intro x hx
      obtain ⟨e, he10, hxe⟩ := hdig x hx
      rw [hxe]
      exact (digitChar_shape he10).1
    simp only [parseIntStr, hdata, h1, h2, h3]
    rw [if_neg (by simp [hne])]
    rw [hval]
    have hcast : ((-n).toNat : Int) = -n := Int.toNat_of_nonneg (by omega)
    rw [hcast]
    simp
  · rw [if_neg h]
    rw [show jsNumRepr n.toNat = natRepr n.toNat by
      unfold jsNumRepr
      rw [if_pos (by omega)]]
    rw [parseIntStr_natRepr]
    simp [Int.toNat_of_nonneg (not_lt.mp h)]

theorem parseFloatStr_natRepr (m : Nat) : parseFloatStr (natRepr m) = some m := by
  obtain ⟨hne, hdig, hval⟩ := natReprAux_digits (m + 1) m (Nat.lt_succ_self m)
  have hdata : (natRepr m).data = natReprAux (m + 1) m [] := rfl
  rcases hds : natReprAux (m + 1) m [] with _ | ⟨c, t⟩
  · exact absurd hds hne
  · obtain ⟨d, hd10, hcd⟩ := hdig c (by rw [hds]; exact List.mem_cons_self c t)
    obtain ⟨_, hws, hminus, hplus, _⟩ := digitChar_shape hd10
    have h1 : dropLeadingWs (c :: t) = c :: t :=
      dropWhile_cons_of_neg (by rw [hcd]; exact hws)
    have h2 : readSign (c :: t) = (1, c :: t) :=
      readSign_of_ne (by rw [hcd]; exact hminus) (by rw [hcd]; exact hplus)
    have h3 : (c :: t).takeWhile Char.isDigit = c :: t := by
      rw [List.takeWhile_eq_self_iff]
      intro x hx
      obtain ⟨e, he10, hxe⟩ := hdig x (by rw [hds]; exact hx)
      rw [hxe]
      exact (digitChar_shape he10).1
    simp only [parseFloatStr, hdata, hds, h1, h2, h3]
    rw [if_neg (by simp)]
    rw [show c :: t = natReprAux (m + 1) m [] from hds.symm, hval]
    simp

theorem parseFloatStr_intRepr (n : Int) (hb : n.natAbs < 1000000000000000000000) :
    parseFloatStr (intRepr n) = some n := by
  unfold intRepr
  by_cases h : n < 0
  · rw [if_pos h]
    rw [show jsNumRepr (-n).toNat = natRepr (-n).toNat by
      unfold jsNumRepr
      rw [if_pos (by omega)]]
    obtain ⟨hne, hdig, hval⟩ := natReprAux_digits ((-n).toNat + 1) (-n).toNat (Nat.lt_succ_self _)
    have hdata : ("-" ++ natRepr (-n).toNat).data = '-' :: natReprAux ((-n).toNat + 1) (-n).toNat [] := by
      rw [String.data_append]
      rfl
    have h1 : dropLeadingWs ('-' :: natReprAux ((-n).toNat + 1) (-n).toNat []) =
        '-' :: natReprAux ((-n).toNat + 1) (-n).toNat [] :=
      dropWhile_cons_of_neg (by decide)
    have h2 : readSign ('-' :: natReprAux ((-n).toNat + 1) (-n).toNat []) =
        (-1, natReprAux ((-n).toNat + 1) (-n).toNat []) := rfl
    have h3 : (natReprAux ((-n).toNat + 1) (-n).toNat []).takeWhile Char.isDigit =
        natReprAux ((-n).toNat + 1) (-n).toNat [] := by
      rw [List.takeWhile_eq_self_iff]
      intro x hx
      obtain ⟨e, he10, hxe⟩ := hdig x hx
      rw [hxe]
      exact (digitChar_shape he10).1
    simp only [parseFloatStr, hdata, h1, h2, h3]
    rw [if_neg (by simp [hne])]
    rw [hval]
    have hcast : ((-n).toNat : Int) = -n := Int.toNat_of_nonneg (by omega)
    rw [hcast]
    simp
  · rw [if_neg h]
    rw [show jsNumRepr n.toNat = natRepr n.toNat by
      unfold jsNumRepr
      rw [if_pos (by omega)]]
    rw [parseFloatStr_natRepr]
    simp [Int.toNat_of_nonneg (not_lt.mp h)]

/-! ## Claim C5 -/

/-- C5: `assessImageQuality` reproduces the spec's two worked examples:
fileSize 2,000,000 with 1000×800 JPEG scores 100 and is suitable;
fileSize 50,000 with 200×200 UNKNOWN scores 15 and is not suitable. -/
theorem c5_worked_examples :
    (assessImageQuality
      { url := "https://example.com/a.jpg", contentType := "image/jpeg",
        fileSize := some 2000000, lastModified := none, format := "JPEG",
        timestamp := "2024-01-01T00:00:00.000Z",
        dimensions := some { width := 1000, height := 800, aspectRatio := "1.00",
                             estimated := true } }).score = 100 ∧
    (assessImageQuality
      { url := "https://example.com/a.jpg", contentType := "image/jpeg",
        fileSize := some 2000000, lastModified := none, format := "JPEG",
        timestamp := "2024-01-01T00:00:00.000Z",
        dimensions := some { width := 1000, height := 800, aspectRatio := "1.00",
                             estimated := true } }).suitable = true ∧
    (assessImageQuality
      { url := "https://example.com/b.bin", contentType := "image/bin",
        fileSize := some 50000, lastModified := none, format := "UNKNOWN",
        timestamp := "2024-01-01T00:00:00.000Z",
        dimensions := some { width := 200, height := 200, aspectRatio := "1.00",
                             estimated := true } }).score = 15 ∧
    (assessImageQuality
      { url := "https://example.com/b.bin", contentType := "image/bin",
        fileSize := some 50000, lastModified := none, format := "UNKNOWN",
        timestamp := "2024-01-01T00:00:00.000Z",
        dimensions := some { width := 200, height := 200, aspectRatio := "1.00",
                             estimated := true } }).suitable = false := by
  refine ⟨by decide, by decide, by decide, by decide⟩

/-! ## Claim C4 -/

/-- Claim-side raw score contribution of the file-size check. -/
def rawSizeDelta (fileSize : Option Int) : Int :=
  if jsLt fileSize 100000 then -10
  else if jsGt fileSize 5000000 then -5
  else 20

/-- Claim-side raw score contribution of the dimension check. -/
def rawDimsDelta : Option Dimensions → Int
  | some d =>
    if d.width < 300 ∨ d.height < 300 then -15
    else if d.width ≥ 800 ∧ d.height ≥ 600 then 25
    else 15
  | none => 0

/-- Claim-side raw score contribution of the format check. -/
def rawFormatDelta (format : String) : Int :=
  if format = "JPEG" ∨ format = "PNG" then 10
  else if format = "WebP" then 5
  else -10

/-- Claim-side raw (pre-offset, pre-clamp) quality score: the sum of the
three independent contributions. -/
def rawQualityScore (m : PhotoMetadata) : Int :=
  rawSizeDelta m.fileSize + rawDimsDelta m.dimensions + rawFormatDelta m.format

/-- Claim-side count of recorded issues. -/
def rawIssueCount (m : PhotoMetadata) : Nat :=
  (if jsLt m.fileSize 100000 then 1 else if jsGt m.fileSize 5000000 then 1 else 0) +
  (match m.dimensions with
   | some d => if d.width < 300 ∨ d.height < 300 then 1 else 0
   | none => 0) +
  (if m.format = "JPEG" ∨ m.format = "PNG" then 0
   else if m.format = "WebP" then 0
   else 1)

/-- C4: for every metadata input, `assessImageQuality` reports
`suitable = true` iff the raw pre-clamp score is at least 30 and fewer
than three issues were recorded, while the reported score is the
post-clamp value `max 0 (min 100 (raw + 50))`. -/
theorem c4_suitable_preclamp (m : PhotoMetadata) :
    (assessImageQuality m).suitable =
      (decide (rawQualityScore m ≥ 30) && decide (rawIssueCount m < 3)) ∧
    (assessImageQuality m).score = max 0 (min 100 (rawQualityScore m + 50)) := by
  unfold assessImageQuality rawQualityScore rawSizeDelta rawDimsDelta rawFormatDelta
    rawIssueCount
  rcases m.dimensions with _ | d <;>
    simp only [] <;>
    split_ifs <;>
    simp_all

/-! ## Claim C1 -/

/-- C1 (code bug): the empty request body fails the request schema, yet
the validation middleware of `POST /apirecommendations` branches on the
truthiness of the Joi result **object**, which is truthy even on
validation failure; so the 400 `INVALID_REQUEST` response is unreachable
for every body, and the failing body still reaches the external
`generateRecommendations` call. -/
theorem c1_schema_failure_not_rejected :
    apiRequestSchemaOk (JSValue.obj []) = false ∧
    (∀ (isURL : String → Bool) (body : JSValue) (respBody : JSValue),
      apiRecommendationsRoute isURL body ≠ RouteResult.response 400 respBody) ∧
    (∀ isURL : String → Bool,
      apiRecommendationsRoute isURL (JSValue.obj []) =
        RouteResult.externalCall JSValue.undefined
          (JSValue.obj [("error", JSValue.str "Answers must be an object.")])
          { success := false, error := some "INVALID_INPUT",
            message := "Photo URLs must be provided as an array",
            validatedUrls := none, errors := none }) := by
  refine ⟨rfl, ?_, fun isURL => rfl⟩
  intro isURL body respBody
  unfold apiRecommendationsRoute
  rw [if_pos (show truthy (validateAPIRequest body) = true from rfl)]
  rcases processQuestionnaireAnswers (getProp body "questionnaireAnswers") with e | v
  · simp
  · simp

/-! ## Claim C9 -/

/-- C9: `validatePhotoUrls` rejects every non-array input with
`INVALID_INPUT`, every empty array with `EMPTY_ARRAY`, and every array of
more than five elements (in particular any six URLs, whatever their
individual validity) with `TOO_MANY_PHOTOS`. -/
theorem c9_array_guards :
    (∀ (isURL : String → Bool) (v : JSValue), (∀ xs, v ≠ JSValue.arr xs) →
      (validatePhotoUrls isURL v).success = false ∧
      (validatePhotoUrls isURL v).error = some "INVALID_INPUT") ∧
    (∀ isURL : String → Bool,
      (validatePhotoUrls isURL (JSValue.arr [])).success = false ∧
      (validatePhotoUrls isURL (JSValue.arr [])).error = some "EMPTY_ARRAY") ∧
    (∀ (isURL : String → Bool) (xs : List JSValue), 5 < xs.length →
      (validatePhotoUrls isURL (JSValue.arr xs)).success = false ∧
      (validatePhotoUrls isURL (JSValue.arr xs)).error = some "TOO_MANY_PHOTOS") := by
  refine ⟨?_, fun isURL => ⟨rfl, rfl⟩, ?_⟩
  · intro isURL v hv
    cases v with
    | arr xs => exact absurd rfl (hv xs)
    | undefined => exact ⟨rfl, rfl⟩
    | null => exact ⟨rfl, rfl⟩
    | bool b => exact ⟨rfl, rfl⟩
    | num n => exact ⟨rfl, rfl⟩
    | nan => exact ⟨rfl, rfl⟩
    | str s => exact ⟨rfl, rfl⟩
    | obj fs => exact ⟨rfl, rfl⟩
  · intro isURL xs hlen
    simp only [validatePhotoUrls]
    rw [if_neg (by omega), if_pos (by omega)]
    exact ⟨rfl, rfl⟩

/-- C9 witness: the guards evaluated at a non-array input and at a
six-element array of syntactically valid URLs. -/
theorem c9_array_guards_witness :
    (∀ xs, JSValue.str "not-an-array" ≠ JSValue.arr xs) ∧
    ((validatePhotoUrls (fun _ => true) (JSValue.str "not-an-array")).error =
      some "INVALID_INPUT") ∧
    5 < ([JSValue.str "https://a.com/1.jpg", JSValue.str "https://a.com/2.jpg",
          JSValue.str "https://a.com/3.jpg", JSValue.str "https://a.com/4.jpg",
          JSValue.str "https://a.com/5.jpg", JSValue.str "https://a.com/6.jpg"] :
          List JSValue).length ∧
    ((validatePhotoUrls (fun _ => true)
      (JSValue.arr [JSValue.str "https://a.com/1.jpg", JSValue.str "https://a.com/2.jpg",
        JSValue.str "https://a.com/3.jpg", JSValue.str "https://a.com/4.jpg",
        JSValue.str "https://a.com/5.jpg", JSValue.str "https://a.com/6.jpg"])).error =
      some "TOO_MANY_PHOTOS") :=
  ⟨fun xs h => JSValue.noConfusion h,
   (c9_array_guards.1 (fun _ => true) (JSValue.str "not-an-array")
     (fun xs h => JSValue.noConfusion h)).2,
   by decide,
   (c9_array_guards.2.2 (fun _ => true) _ (by decide)).2⟩

/-! ## Claim C3 -/

theorem keep_of_mem_filter {l : List (String × JSValue)} {kv : String × JSValue}
    (h : kv ∈ l.filter keepEntry) : kv.2 ≠ JSValue.null ∧ kv.2 ≠ JSValue.undefined := by
  have hk := (List.mem_filter.mp h).2
  unfold keepEntry at hk
  rcases kv with ⟨k, v⟩
  cases v <;> simp_all

theorem lookupField_eq_none {l : List (String × JSValue)} {k : String}
    (h : ∀ kv ∈ l, kv.1 ≠ k) : lookupField l k = none := by
  induction l with
  | nil => rfl
  | cons kv rest ih =>
    unfold lookupField
    rw [if_neg (h kv (List.mem_cons_self kv rest))]
    exact ih fun x hx => h x (List.mem_cons_of_mem kv hx)

theorem mem_hydrationEntry_key {a : JSValue} {kv : String × JSValue}
    (h : kv ∈ hydrationEntry a) : kv.1 = "hydration" := by
  unfold hydrationEntry at h
  split at h <;> simp_all

theorem mem_sleepHoursEntry_key {a : JSValue} {kv : String × JSValue}
    (h : kv ∈ sleepHoursEntry a) : kv.1 = "sleepHours" := by
  unfold sleepHoursEntry at h
  split at h <;> simp_all

theorem mem_stressLevelEntry_key {a : JSValue} {kv : String × JSValue}
    (h : kv ∈ stressLevelEntry a) : kv.1 = "stressLevel" := by
  unfold stressLevelEntry at h
  split at h <;> simp_all

theorem mem_sunPart_key {a : JSValue} {kv : String × JSValue}
    (h : kv ∈ (if hasKey a "sunExposure" then
      [("sunExposure", JSValue.str (jsToLower (jsToString (getProp a "sunExposure"))))]
     else ([] : List (String × JSValue)))) : kv.1 = "sunExposure" := by
  split at h <;> simp_all

theorem hydrationEntry_filter_of_fail {a : JSValue}
    (h : parseIntStr (jsToString (getProp a "hydration")) = none) :
    (hydrationEntry a).filter keepEntry = [] := by
  unfold hydrationEntry
  split
  · rw [h]
    rfl
  · rfl

theorem sleepHoursEntry_filter_of_fail {a : JSValue}
    (h : parseFloatStr (jsToString (getProp a "sleepHours")) = none) :
    (sleepHoursEntry a).filter keepEntry = [] := by
  unfold sleepHoursEntry
  split
  · rw [h]
    rfl
  · rfl

theorem stressLevelEntry_filter_of_fail {a : JSValue}
    (h : parseIntStr (jsToString (getProp a "stressLevel")) = none) :
    (stressLevelEntry a).filter keepEntry = [] := by
  unfold stressLevelEntry
  split
  · rw [h]
    rfl
  · rfl

theorem sunExposureEntry_ok {a : JSValue}
    (h : hasKey a "sunExposure" = true →
      getProp a "sunExposure" ≠ JSValue.null ∧ getProp a "sunExposure" ≠ JSValue.undefined) :
    sunExposureEntry a = Except.ok
      (if hasKey a "sunExposure" then
        [("sunExposure", JSValue.str (jsToLower (jsToString (getProp a "sunExposure"))))]
       else []) := by
  unfold sunExposureEntry
  by_cases hk : hasKey a "sunExposure" = true
  · obtain ⟨h1, h2⟩ := h hk
    rw [if_pos hk, if_pos hk]
    rcases hv : getProp a "sunExposure" with _ | _ | b | n | _ | s | xs | fs <;>
      simp_all
  · simp [hk]

/-- C3 counterexample: a present-but-null `sunExposure` key makes
`processQuestionnaireAnswers` throw a `TypeError` instead of returning
normally, although the input is an object. -/
theorem c3_counterexample :
    processQuestionnaireAnswers (JSValue.obj [("sunExposure", JSValue.null)]) =
      Except.error "TypeError: Cannot read properties of null (reading toString)" := rfl

/-- C3 (amended): for every input object whose `sunExposure` key, when
present, is neither null nor undefined, `processQuestionnaireAnswers`
returns normally, every recognized key whose coercion fails is dropped
from the output, and the returned record holds no null or undefined
value. -/
theorem c3_coercion_failures_dropped (answers : JSValue)
    (h1 : truthy answers = true) (h2 : typeOf answers = "object")
    (h3 : hasKey answers "sunExposure" = true →
      getProp answers "sunExposure" ≠ JSValue.null ∧
      getProp answers "sunExposure" ≠ JSValue.undefined) :
    ∃ fields, processQuestionnaireAnswers answers = Except.ok (JSValue.obj fields) ∧
      (∀ kv ∈ fields, kv.2 ≠ JSValue.null ∧ kv.2 ≠ JSValue.undefined) ∧
      (parseIntStr (jsToString (getProp answers "hydration")) = none →
        lookupField fields "hydration" = none) ∧
      (parseFloatStr (jsToString (getProp answers "sleepHours")) = none →
        lookupField fields "sleepHours" = none) ∧
      (parseIntStr (jsToString (getProp answers "stressLevel")) = none →
        lookupField fields "stressLevel" = none) := by
  have hse := sunExposureEntry_ok h3
  refine ⟨((hydrationEntry answers ++
      (if hasKey answers "sunExposure" then
        [("sunExposure", JSValue.str (jsToLower (jsToString (getProp answers "sunExposure"))))]
       else []) ++
      sleepHoursEntry answers ++ stressLevelEntry answers).filter keepEntry),
    ?_, ?_, ?_, ?_, ?_⟩
  · unfold processQuestionnaireAnswers
    rw [if_neg (by simp [h1, h2]), hse]
  · intro kv hkv
    exact keep_of_mem_filter hkv
  · intro hfail
    have hsplit : ∀ l2 l3 l4 : List (String × JSValue),
        (hydrationEntry answers ++ l2 ++ l3 ++ l4).filter keepEntry =
        (hydrationEntry answers).filter keepEntry ++
          (l2.filter keepEntry ++ (l3.filter keepEntry ++ l4.filter keepEntry)) := by
      intro l2 l3 l4
      simp [List.filter_append, List.append_assoc]
    rw [hsplit, hydrationEntry_filter_of_fail hfail, List.nil_append]
    apply lookupField_eq_none
    intro kv hkv
    rcases List.mem_append.mp hkv with hB | hkv
    · rw [mem_sunPart_key (List.mem_filter.mp hB).1]
      decide
    · rcases List.mem_append.mp hkv with hC | hD
      · rw [mem_sleepHoursEntry_key (List.mem_filter.mp hC).1]
        decide
      · rw [mem_stressLevelEntry_key (List.mem_filter.mp hD).1]
        decide
  · intro hfail
    have hsplit : ∀ l1 l2 l4 : List (String × JSValue),
        (l1 ++ l2 ++ sleepHoursEntry answers ++ l4).filter keepEntry =
        l1.filter keepEntry ++ (l2.filter keepEntry ++
          ((sleepHoursEntry answers).filter keepEntry ++ l4.filter keepEntry)) := by
      intro l1 l2 l4
      simp [List.filter_append, List.append_assoc]
    rw [hsplit, sleepHoursEntry_filter_of_fail hfail, List.nil_append]
    apply lookupField_eq_none
    intro kv hkv
    rcases List.mem_append.mp hkv with hA | hkv
    · rw [mem_hydrationEntry_key (List.mem_filter.mp hA).1]
      decide
    · rcases List.mem_append.mp hkv with hB | hD
      · rw [mem_sunPart_key (List.mem_filter.mp hB).1]
        decide
      · rw [mem_stressLevelEntry_key (List.mem_filter.mp hD).1]
        decide
  · intro hfail
    have hsplit : ∀ l1 l2 l3 : List (String × JSValue),
        (l1 ++ l2 ++ l3 ++ stressLevelEntry answers).filter keepEntry =
        l1.filter keepEntry ++ (l2.filter keepEntry ++
          (l3.filter keepEntry ++ (stressLevelEntry answers).filter keepEntry)) := by
      intro l1 l2 l3
      simp [List.filter_append, List.append_assoc]
    rw [hsplit, stressLevelEntry_filter_of_fail hfail, List.append_nil]
    apply lookupField_eq_none
    intro kv hkv
    rcases List.mem_append.mp hkv with hA | hkv
    · rw [mem_hydrationEntry_key (List.mem_filter.mp hA).1]
      decide
    · rcases List.mem_append.mp hkv with hB | hC
      · rw [mem_sunPart_key (List.mem_filter.mp hB).1]
        decide
      · rw [mem_sleepHoursEntry_key (List.mem_filter.mp hC).1]
        decide

/-- C3 witness: the amended statement applied to a concrete object where
the hydration and sleepHours coercions fail and sunExposure is a safe
non-string value. -/
theorem c3_coercion_failures_dropped_witness :
    truthy (JSValue.obj [("hydration", JSValue.str "abc"),
      ("sunExposure", JSValue.bool true), ("sleepHours", JSValue.str "x"),
      ("stressLevel", JSValue.num 3)]) = true ∧
    typeOf (JSValue.obj [("hydration", JSValue.str "abc"),
      ("sunExposure", JSValue.bool true), ("sleepHours", JSValue.str "x"),
      ("stressLevel", JSValue.num 3)]) = "object" ∧
    (∃ fields, processQuestionnaireAnswers
        (JSValue.obj [("hydration", JSValue.str "abc"),
          ("sunExposure", JSValue.bool true), ("sleepHours", JSValue.str "x"),
          ("stressLevel", JSValue.num 3)]) = Except.ok (JSValue.obj fields) ∧
      (∀ kv ∈ fields, kv.2 ≠ JSValue.null ∧ kv.2 ≠ JSValue.undefined) ∧
      (parseIntStr (jsToString (getProp
          (JSValue.obj [("hydration", JSValue.str "abc"),
            ("sunExposure", JSValue.bool true), ("sleepHours", JSValue.str "x"),
            ("stressLevel", JSValue.num 3)]) "hydration")) = none →
        lookupField fields "hydration" = none) ∧
      (parseFloatStr (jsToString (getProp
          (JSValue.obj [("hydration", JSValue.str "abc"),
            ("sunExposure", JSValue.bool true), ("sleepHours", JSValue.str "x"),
            ("stressLevel", JSValue.num 3)]) "sleepHours")) = none →
        lookupField fields "sleepHours" = none) ∧
      (parseIntStr (jsToString (getProp
          (JSValue.obj [("hydration", JSValue.str "abc"),
            ("sunExposure", JSValue.bool true), ("sleepHours", JSValue.str "x"),
            ("stressLevel", JSValue.num 3)]) "stressLevel")) = none →
        lookupField fields "stressLevel" = none)) :=
  ⟨rfl, rfl,
   c3_coercion_failures_dropped _ rfl rfl
     (fun _ => ⟨fun h => JSValue.noConfusion h, fun h => JSValue.noConfusion h⟩)⟩

/-! ## Claim C2 -/

theorem ne_append_of_take_ne {a b : String}
    (h : a.data.take b.data.length ≠ b.data) (t : String) : a ≠ b ++ t := by
  intro he
  apply h
  have hd : a.data = b.data ++ t.data := by rw [he, String.data_append]
  rw [hd, List.take_left]

theorem exists_append2 (X C : String) : ∃ t, X ++ C = X ++ t := ⟨C, rfl⟩

theorem exists_append4 (X C D E : String) : ∃ t, X ++ C ++ D ++ E = X ++ t :=
  ⟨C ++ (D ++ E), by simp [String.append_assoc]⟩

/-- Every message pushed by the `validateProfileData` loop body for a
field is either that field's missing-field message or starts with
`Field <key>`. -/
theorem checkField_mem_shape (r : FieldRule) (v : JSValue) (msg : String)
    (h : msg ∈ checkField r v) :
    msg = "Missing required field: " ++ r.key ∨ ∃ t, msg = "Field " ++ r.key ++ t := by
  unfold checkField at h
  split at h
  · left
    simpa using h
  · right
    simp only [List.mem_append] at h
    rcases h with ((((h | h) | h) | h) | h)
    · split at h
      · simp at h
        rw [h]
        exact exists_append2 _ _
      · simp at h
    · split at h
      · rcases v with _ | _ | b | n | _ | s | xs | fs
        case num =>
          simp only [List.mem_append] at h
          rcases h with h | h
          · split at h
            · split at h
              · simp at h
                rw [h]
                exact exists_append4 _ _ _ _
              · simp at h
            · simp at h
          · split at h
            · split at h
              · simp at h
                rw [h]
                exact exists_append4 _ _ _ _
              · simp at h
            · simp at h
        all_goals
          simp at h
          rw [h]
          exact exists_append2 _ _
      · simp at h
    · split at h
      · rcases v with _ | _ | b | n | _ | s | xs | fs <;>
          try (simp at h; rw [h]; exact exists_append2 _ _)
        case arr =>
          rcases hall : r.allowed with _ | allowed
          · rw [hall] at h
            simp at h
          · rw [hall] at h
            simp at h
            rw [h.2]
            exact exists_append4 _ _ _ _
      · simp at h
    · rcases hall : r.allowed with _ | allowed
      · rw [hall] at h
        simp at h
      · rw [hall] at h
        simp at h
        rw [h.2]
        exact exists_append4 _ _ _ _
    · split at h
      · rcases v with _ | _ | b | n | _ | s | xs | fs <;> try simp at h
        case str =>
          rw [h.2]
          exact exists_append4 _ _ _ _
      · simp at h

theorem msg_not_in_checkField {r : FieldRule} {v : JSValue} {msg : String}
    (hmiss : msg ≠ "Missing required field: " ++ r.key)
    (hpre : msg.data.take ("Field " ++ r.key).data.length ≠ ("Field " ++ r.key).data) :
    msg ∉ checkField r v := by
  intro h
  rcases checkField_mem_shape r v msg h with he | ⟨t, he⟩
  · exact hmiss he
  · exact ne_append_of_take_ne hpre t he

/-- The age rule's error list: the range checks run only in the `else`
branch of the numeric type test. -/
theorem checkField_age_eq (v : JSValue) :
    checkField { key := "age", type := "number", min := some 13, max := some 120 } v =
      (if isMissingValue v then ["Missing required field: age"]
       else match v with
        | JSValue.num n =>
          (if n < 13 then ["Field age must be at least 13."] else []) ++
          (if n > 120 then ["Field age must be at most 120."] else [])
        | _ => ["Field age must be a number."]) := by
  unfold checkField
  split
  · rfl
  · rcases v with _ | _ | b | n | _ | s | xs | fs <;>
      simp [show intRepr 13 = "13" from rfl, show intRepr 120 = "120" from rfl]

/-- C2 counterexample: no input record can make the `age` field
contribute both the numeric type error and a min/max range error — the
range checks run only in the `else` branch of the type test, so the
claimed independence fails for `age`. -/
theorem c2_counterexample :
    ¬ ∃ (p : JSValue) (es : List String),
      validateProfileData p = ProfileValidation.invalid es ∧
      "Field age must be a number." ∈ es ∧
      ("Field age must be at least 13." ∈ es ∨ "Field age must be at most 120." ∈ es) := by
  rintro ⟨p, es, hval, hnum, hrange⟩
  simp only [validateProfileData] at hval
  split at hval
  · injection hval with h
    rw [← h] at hnum
    simp at hnum
  · split at hval
    · injection hval with h
      subst h
      simp only [requiredFields, List.map_cons, List.map_nil, List.flatten_cons,
        List.flatten_nil, List.append_nil, List.mem_append] at hnum hrange
      have hnum2 : "Field age must be a number." ∈
          checkField { key := "age", type := "number", min := some 13, max := some 120 }
            (getProp p "age") := by
        rcases hnum with h | h | h | h | h
        · exact absurd h (msg_not_in_checkField (by decide) (by decide))
        · exact h
        · exact absurd h (msg_not_in_checkField (by decide) (by decide))
        · exact absurd h (msg_not_in_checkField (by decide) (by decide))
        · exact absurd h (msg_not_in_checkField (by decide) (by decide))
      have hrange2 :
          ("Field age must be at least 13." ∈
            checkField { key := "age", type := "number", min := some 13, max := some 120 }
              (getProp p "age")) ∨
          ("Field age must be at most 120." ∈
            checkField { key := "age", type := "number", min := some 13, max := some 120 }
              (getProp p "age")) := by
        rcases hrange with (h | h | h | h | h) | (h | h | h | h | h)
        · exact absurd h (msg_not_in_checkField (by decide) (by decide))
        · exact Or.inl h
        · exact absurd h (msg_not_in_checkField (by decide) (by decide))
        · exact absurd h (msg_not_in_checkField (by decide) (by decide))
        · exact absurd h (msg_not_in_checkField (by decide) (by decide))
        · exact absurd h (msg_not_in_checkField (by decide) (by decide))
        · exact Or.inr h
        · exact absurd h (msg_not_in_checkField (by decide) (by decide))
        · exact absurd h (msg_not_in_checkField (by decide) (by decide))
        · exact absurd h (msg_not_in_checkField (by decide) (by decide))
      rw [checkField_age_eq] at hnum2 hrange2
      by_cases hm : isMissingValue (getProp p "age") = true
      · rw [if_pos hm] at hnum2
        simp at hnum2
      · rw [if_neg hm] at hnum2 hrange2
        rcases hv : getProp p "age" with _ | _ | b | n | _ | s | xs | fs
        · rw [hv] at hrange2
          simp at hrange2
        · rw [hv] at hrange2
          simp at hrange2
        · rw [hv] at hrange2
          simp at hrange2
        · rw [hv] at hnum2
          simp only [] at hnum2
          split_ifs at hnum2 <;> simp_all
        · rw [hv] at hrange2
          simp at hrange2
        · rw [hv] at hrange2
          simp at hrange2
        · rw [hv] at hrange2
          simp at hrange2
        · rw [hv] at hrange2
          simp at hrange2
    · exact ProfileValidation.noConfusion hval

/-- C2 (amended): the checks that are truly independent of the type test
are the allowed-values checks, not the numeric range checks: a single
non-string `skinType` value contributes both the type error and the
enum error, while `age` can never combine its type error with a range
error. -/
theorem c2_amended_type_and_enum_errors :
    validateProfileData (JSValue.obj
      [("name", JSValue.str "Alex"), ("age", JSValue.num 25),
       ("skinType", JSValue.num 4), ("concerns", JSValue.arr [JSValue.str "acne"]),
       ("location", JSValue.str "NY")]) =
      ProfileValidation.invalid
        ["Field skinType must be a string.",
         "Field skinType must be one of: dry, oily, combination, normal, sensitive."] := rfl

/-! ## Claim C8 -/

/-- Shape of a normalized answers record: at most one binding per
recognized key, in insertion order, with integer values for the parsed
keys and a string for `sunExposure`. -/
def normEntries (h : Option Int) (su : Option String) (sl : Option Int)
    (st : Option Int) : List (String × JSValue) :=
  (match h with | some n => [("hydration", JSValue.num n)] | none => []) ++
  (match su with | some s => [("sunExposure", JSValue.str s)] | none => []) ++
  (match sl with | some n => [("sleepHours", JSValue.num n)] | none => []) ++
  (match st with | some n => [("stressLevel", JSValue.num n)] | none => [])

theorem hydrationEntry_filter_shape (a : JSValue) :
    ∃ h : Option Int, (hydrationEntry a).filter keepEntry =
      (match h with | some n => [("hydration", JSValue.num n)] | none => []) := by
  unfold hydrationEntry
  split
  · rcases hp : parseIntStr (jsToString (getProp a "hydration")) with _ | n
    · exact ⟨none, by simp [hp, keepEntry]⟩
    · exact ⟨some n, by simp [hp, keepEntry]⟩
  · exact ⟨none, rfl⟩

theorem sleepHoursEntry_filter_shape (a : JSValue) :
    ∃ sl : Option Int, (sleepHoursEntry a).filter keepEntry =
      (match sl with | some n => [("sleepHours", JSValue.num n)] | none => []) := by
  unfold sleepHoursEntry
  split
  · rcases hp : parseFloatStr (jsToString (getProp a "sleepHours")) with _ | n
    · exact ⟨none, by simp [hp, keepEntry]⟩
    · exact ⟨some n, by simp [hp, keepEntry]⟩
  · exact ⟨none, rfl⟩

theorem stressLevelEntry_filter_shape (a : JSValue) :
    ∃ st : Option Int, (stressLevelEntry a).filter keepEntry =
      (match st with | some n => [("stressLevel", JSValue.num n)] | none => []) := by
  unfold stressLevelEntry
  split
  · rcases hp : parseIntStr (jsToString (getProp a "stressLevel")) with _ | n
    · exact ⟨none, by simp [hp, keepEntry]⟩
    · exact ⟨some n, by simp [hp, keepEntry]⟩
  · exact ⟨none, rfl⟩

theorem sun_entry_case (v : JSValue) :
    ∃ su : Option String,
      ([("sunExposure", JSValue.str (jsToLower (jsToString v)))].filter keepEntry =
        (match su with | some s => [("sunExposure", JSValue.str s)] | none => [])) ∧
      (∀ s, su = some s → jsToLower s = s) :=
  ⟨some (jsToLower (jsToString v)), by simp [keepEntry], fun s hs => by
    injection hs with hs
    rw [← hs]
    exact jsToLower_idem _⟩

theorem sunExposureEntry_filter_shape (a : JSValue) (se : List (String × JSValue))
    (h : sunExposureEntry a = .ok se) :
    ∃ su : Option String, se.filter keepEntry =
      (match su with | some s => [("sunExposure", JSValue.str s)] | none => []) ∧
      (∀ s, su = some s → jsToLower s = s) := by
  unfold sunExposureEntry at h
  split at h
  · rcases hv : getProp a "sunExposure" with _ | _ | b | n | _ | s | xs | fs <;>
      rw [hv] at h <;> simp only [] at h
    all_goals first
      | exact Except.noConfusion h
      | (injection h with hse
         subst hse
         exact sun_entry_case _)
  · injection h with hse
    subst hse
    exact ⟨none, rfl, by intro s hs; exact Option.noConfusion hs⟩

theorem pq_output_shape (a y : JSValue) (h1 : truthy a = true)
    (h2 : typeOf a = "object")
    (hok : processQuestionnaireAnswers a = .ok y) :
    ∃ h su sl st, y = JSValue.obj (normEntries h su sl st) ∧
      (∀ s, su = some s → jsToLower s = s) := by
  simp only [processQuestionnaireAnswers] at hok
  rw [if_neg (by simp [h1, h2])] at hok
  rcases hse : sunExposureEntry a with e | se
  · rw [hse] at hok
    simp only [] at hok
    exact Except.noConfusion hok
  · rw [hse] at hok
    simp only [] at hok
    injection hok with hy
    obtain ⟨h', hh⟩ := hydrationEntry_filter_shape a
    obtain ⟨su', hsu1, hsu2⟩ := sunExposureEntry_filter_shape a se hse
    obtain ⟨sl', hsl⟩ := sleepHoursEntry_filter_shape a
    obtain ⟨st', hst⟩ := stressLevelEntry_filter_shape a
    refine ⟨h', su', sl', st', ?_, hsu2⟩
    rw [← hy]
    unfold normEntries
    simp only [List.filter_append]
    rw [hh, hsu1, hsl, hst]

/-- Is every numeric binding of an object below JavaScript's
exponential-notation threshold 10^21 (the range on which number
printing round-trips through `parseInt`)? -/
def entriesBelowExpThreshold : JSValue → Bool
  | .obj fields => fields.all fun kv =>
      match kv.2 with
      | .num n => n.natAbs < 1000000000000000000000
      | _ => true
  | _ => true

theorem pq_norm_fixed (h : Option Int) (su : Option String) (sl : Option Int)
    (st : Option Int) (hsu : ∀ s, su = some s → jsToLower s = s)
    (hh : ∀ n, h = some n → n.natAbs < 1000000000000000000000)
    (hsl : ∀ n, sl = some n → n.natAbs < 1000000000000000000000)
    (hst : ∀ n, st = some n → n.natAbs < 1000000000000000000000) :
    processQuestionnaireAnswers (JSValue.obj (normEntries h su sl st)) =
      .ok (JSValue.obj (normEntries h su sl st)) := by
  rcases h with _ | n <;> rcases su with _ | s <;>
    rcases sl with _ | m <;> rcases st with _ | k
  all_goals try have en := parseIntStr_intRepr n (hh n rfl)
  all_goals try have em := parseFloatStr_intRepr m (hsl m rfl)
  all_goals try have ek := parseIntStr_intRepr k (hst k rfl)
  all_goals try have hs := hsu s rfl
  all_goals
    simp [processQuestionnaireAnswers, normEntries, hydrationEntry, sunExposureEntry,
      sleepHoursEntry, stressLevelEntry, hasKey, lookupField, getProp, keepEntry,
      jsToString, truthy, typeOf, *]

theorem normEntries_bounds (h : Option Int) (su : Option String) (sl : Option Int)
    (st : Option Int)
    (hb : entriesBelowExpThreshold (JSValue.obj (normEntries h su sl st)) = true) :
    (∀ n, h = some n → n.natAbs < 1000000000000000000000) ∧
    (∀ n, sl = some n → n.natAbs < 1000000000000000000000) ∧
    (∀ n, st = some n → n.natAbs < 1000000000000000000000) := by
  rcases h with _ | n <;> rcases su with _ | s <;>
    rcases sl with _ | m <;> rcases st with _ | k <;>
    simp_all [normEntries, entriesBelowExpThreshold]

/-- C8 counterexample: `processQuestionnaireAnswers` is not idempotent on
every object — the 22-digit hydration answer maps to the number 10^21,
which stringifies as `1e+21`, so reprocessing parses it back as 1. -/
theorem c8_counterexample :
    processQuestionnaireAnswers
        (JSValue.obj [("hydration", JSValue.str "1000000000000000000000")]) =
      Except.ok (JSValue.obj [("hydration", JSValue.num 1000000000000000000000)]) ∧
    processQuestionnaireAnswers
        (JSValue.obj [("hydration", JSValue.num 1000000000000000000000)]) =
      Except.ok (JSValue.obj [("hydration", JSValue.num 1)]) ∧
    JSValue.obj [("hydration", JSValue.num 1)] ≠
      JSValue.obj [("hydration", JSValue.num 1000000000000000000000)] := by
  refine ⟨rfl, rfl, ?_⟩
  simp

/-- C8 (amended): `processQuestionnaireAnswers` is idempotent on every
object whose output keeps all numeric values below 10^21, JavaScript's
exponential-notation threshold — applying it to such an output returns
that output unchanged. -/
theorem c8_idempotent (answers y : JSValue)
    (h1 : truthy answers = true) (h2 : typeOf answers = "object")
    (hok : processQuestionnaireAnswers answers = .ok y)
    (hbound : entriesBelowExpThreshold y = true) :
    processQuestionnaireAnswers y = .ok y := by
  obtain ⟨h, su, sl, st, rfl, hsu⟩ := pq_output_shape answers y h1 h2 hok
  obtain ⟨hh, hsl, hst⟩ := normEntries_bounds h su sl st hbound
  exact pq_norm_fixed h su sl st hsu hh hsl hst

/-- C8 witness: idempotence evaluated at a concrete questionnaire
object. -/
theorem c8_idempotent_witness :
    truthy (JSValue.obj [("hydration", JSValue.str "42"),
      ("sunExposure", JSValue.str "HIGH"), ("sleepHours", JSValue.str "7"),
      ("stressLevel", JSValue.str "2")]) = true ∧
    typeOf (JSValue.obj [("hydration", JSValue.str "42"),
      ("sunExposure", JSValue.str "HIGH"), ("sleepHours", JSValue.str "7"),
      ("stressLevel", JSValue.str "2")]) = "object" ∧
    processQuestionnaireAnswers (JSValue.obj [("hydration", JSValue.str "42"),
      ("sunExposure", JSValue.str "HIGH"), ("sleepHours", JSValue.str "7"),
      ("stressLevel", JSValue.str "2")]) =
      Except.ok (JSValue.obj [("hydration", JSValue.num 42),
        ("sunExposure", JSValue.str "high"), ("sleepHours", JSValue.num 7),
        ("stressLevel", JSValue.num 2)]) ∧
    entriesBelowExpThreshold (JSValue.obj [("hydration", JSValue.num 42),
      ("sunExposure", JSValue.str "high"), ("sleepHours", JSValue.num 7),
      ("stressLevel", JSValue.num 2)]) = true ∧
    processQuestionnaireAnswers (JSValue.obj [("hydration", JSValue.num 42),
      ("sunExposure", JSValue.str "high"), ("sleepHours", JSValue.num 7),
      ("stressLevel", JSValue.num 2)]) =
      Except.ok (JSValue.obj [("hydration", JSValue.num 42),
        ("sunExposure", JSValue.str "high"), ("sleepHours", JSValue.num 7),
        ("stressLevel", JSValue.num 2)]) :=
  ⟨rfl, rfl, rfl, rfl,
   c8_idempotent
     (JSValue.obj [("hydration", JSValue.str "42"),
       ("sunExposure", JSValue.str "HIGH"), ("sleepHours", JSValue.str "7"),
       ("stressLevel", JSValue.str "2")])
     (JSValue.obj [("hydration", JSValue.num 42),
       ("sunExposure", JSValue.str "high"), ("sleepHours", JSValue.num 7),
       ("stressLevel", JSValue.num 2)])
     rfl rfl rfl rfl⟩

/-! ## Claim C7 -/

/-- The integer branch test of `roundedSqrtOfThird` computes exactly the
rounded real square root of `p / 3`. -/
theorem roundedSqrtOfThird_eq_round (p : Int) (hp : 0 ≤ p) :
    roundedSqrtOfThird p = round (Real.sqrt ((p : ℝ) / 3)) := by
  have hq : ((p.toNat : Int) : ℝ) = (p : ℝ) := by
    exact_mod_cast congrArg (Int.cast : Int → ℝ) (Int.toNat_of_nonneg hp)
  have hqr : ((p.toNat : ℕ) : ℝ) = (p : ℝ) := by push_cast at hq ⊢; exact hq
  set q : ℕ := p.toNat with hqdef
  set m : ℕ := Nat.sqrt (q / 3) with hmdef
  set x : ℝ := (p : ℝ) / 3 with hxdef
  have hx0 : 0 ≤ x := by
    rw [hxdef]
    positivity
  have f1 : ((q / 3 : ℕ) : ℝ) ≤ x := by
    rw [hxdef, ← hqr]
    exact Nat.cast_div_le
  have f2 : x < ((q / 3 : ℕ) : ℝ) + 1 := by
    rw [hxdef, ← hqr, div_lt_iff₀ (by norm_num)]
    have : (q : ℕ) < ((q / 3 : ℕ) + 1) * 3 := by omega
    exact_mod_cast this
  have f3 : ((m : ℝ)) ^ 2 ≤ x := by
    have h1 : (m : ℕ) ^ 2 ≤ q / 3 := Nat.sqrt_le' (q / 3)
    calc ((m : ℝ)) ^ 2 ≤ ((q / 3 : ℕ) : ℝ) := by exact_mod_cast h1
      _ ≤ x := f1
  have f4 : x < ((m : ℝ) + 1) ^ 2 := by
    have h1 : q / 3 < ((m : ℕ) + 1) ^ 2 := Nat.lt_succ_sqrt' (q / 3)
    have h2 : ((q / 3 : ℕ) : ℝ) + 1 ≤ (((m : ℕ) + 1) ^ 2 : ℕ) := by
      exact_mod_cast h1
    calc x < ((q / 3 : ℕ) : ℝ) + 1 := f2
      _ ≤ (((m : ℕ) + 1) ^ 2 : ℕ) := h2
      _ = ((m : ℝ) + 1) ^ 2 := by push_cast; ring
  have hsq1 : (m : ℝ) ≤ Real.sqrt x :=
    (Real.le_sqrt (by positivity) hx0).mpr f3
  have hsq2 : Real.sqrt x < (m : ℝ) + 1 :=
    (Real.sqrt_lt' (by positivity)).mpr f4
  unfold roundedSqrtOfThird
  simp only [← hqdef, ← hmdef]
  rw [round_eq]
  by_cases hb : 4 * p < 3 * (2 * (m : Int) + 1) ^ 2
  · rw [if_pos hb]
    have hbr : 4 * (p : ℝ) < 3 * (2 * (m : ℝ) + 1) ^ 2 := by exact_mod_cast hb
    have hxlt : x < ((m : ℝ) + 1 / 2) ^ 2 := by
      rw [hxdef]
      nlinarith
    have hsq3 : Real.sqrt x < (m : ℝ) + 1 / 2 :=
      (Real.sqrt_lt' (by positivity)).mpr hxlt
    symm
    rw [Int.floor_eq_iff]
    constructor
    · push_cast
      linarith
    · push_cast
      linarith
  · rw [if_neg hb]
    have hbr : 3 * (2 * (m : ℝ) + 1) ^ 2 ≤ 4 * (p : ℝ) := by
      have : 3 * (2 * (m : Int) + 1) ^ 2 ≤ 4 * p := by omega
      exact_mod_cast this
    have hxge : ((m : ℝ) + 1 / 2) ^ 2 ≤ x := by
      rw [hxdef]
      nlinarith
    have hsq3 : (m : ℝ) + 1 / 2 ≤ Real.sqrt x :=
      (Real.le_sqrt (by positivity) hx0).mpr hxge
    symm
    rw [Int.floor_eq_iff]
    constructor
    · push_cast
      linarith
    · push_cast
      linarith

/-- Claim-side compression ratio table: 6 for PNG, 10 for JPEG, 12 for
WebP, 10 for any other format. -/
def specCompressionRatio (format : String) : Nat :=
  if format = "PNG" then 6
  else if format = "JPEG" then 10
  else if format = "WebP" then 12
  else 10

/-- C7: for every file size and format, `estimateDimensions` reports a
square whose side is the rounded real square root of
`fileSize * compressionRatio / 3`, with the claim's ratio table. -/
theorem c7_estimated_square (fileSize : Int) (format : String) (hp : 0 ≤ fileSize) :
    (estimateDimensions fileSize format).width = (estimateDimensions fileSize format).height ∧
    (estimateDimensions fileSize format).width =
      round (Real.sqrt ((fileSize : ℝ) * (specCompressionRatio format : ℝ) / 3)) := by
  have key : ∀ (r : Int) (rr : ℝ), (r : ℝ) = rr → 0 < r →
      roundedSqrtOfThird (fileSize * r) =
        round (Real.sqrt ((fileSize : ℝ) * rr / 3)) := by
    intro r rr hrr hr
    rw [roundedSqrtOfThird_eq_round _ (mul_nonneg hp (le_of_lt hr))]
    congr 2
    rw [← hrr]
    push_cast
    ring
  refine ⟨rfl, ?_⟩
  unfold estimateDimensions specCompressionRatio
  simp only []
  by_cases h1 : format = "PNG"
  · rw [if_pos h1, if_pos h1]
    exact key 6 _ (by norm_num) (by norm_num)
  · rw [if_neg h1, if_neg h1]
    by_cases h2 : format = "WebP"
    · have h3 : format ≠ "JPEG" := by rw [h2]; decide
      rw [if_pos h2, if_neg h3, if_pos h2]
      exact key 12 _ (by norm_num) (by norm_num)
    · rw [if_neg h2]
      by_cases h3 : format = "JPEG"
      · rw [if_pos h3, if_pos h3]
        exact key 10 _ (by norm_num) (by norm_num)
      · rw [if_neg h3, if_neg h3, if_neg h2]
        exact key 10 _ (by norm_num) (by norm_num)

/-- C7 witness: the estimation formula applied at a concrete JPEG file
size. -/
theorem c7_estimated_square_witness :
    0 ≤ (2000000 : Int) ∧
    ((estimateDimensions 2000000 "JPEG").width =
      (estimateDimensions 2000000 "JPEG").height ∧
    (estimateDimensions 2000000 "JPEG").width =
      round (Real.sqrt (((2000000 : Int) : ℝ) *
        (specCompressionRatio "JPEG" : ℝ) / 3))) :=
  ⟨by decide, c7_estimated_square 2000000 "JPEG" (by decide)⟩

/-! ## Claims C6 and C10 -/

/-- Does the metadata extraction of one photo fail its accessibility
probe (claim-side view of per-photo failure)? -/
def extractFails (probe : Probe) (now : String) (p : ValidatedPhoto) : Bool :=
  match extractPhotoMetadata probe now p.originalUrl with
  | .ok _ _ => false
  | .failed _ _ _ => true

/-- Is one photo AI-compatible with score at least 60 (claim-side view of
a photo counted by `recommendedForAnalysis`)? -/
def photoRecommended (probe : Probe) (now : String) (p : ValidatedPhoto) : Bool :=
  match extractPhotoMetadata probe now p.originalUrl with
  | .ok _ q => q.suitable && decide (q.score ≥ 60)
  | .failed _ _ _ => false

theorem processPhotosLoop_fst_length (probe : Probe) (now : String) (nowMs : Nat)
    (l : List ValidatedPhoto) :
    (processPhotosLoop probe now nowMs l).1.length =
      (l.filter fun p => ! extractFails probe now p).length := by
  induction l with
  | nil => rfl
  | cons photo rest ih =>
    rcases hx : extractPhotoMetadata probe now photo.originalUrl with _ | _ <;>
      simp [processPhotosLoop, extractFails, hx, ih]

theorem processPhotosLoop_snd_length (probe : Probe) (now : String) (nowMs : Nat)
    (l : List ValidatedPhoto) :
    (processPhotosLoop probe now nowMs l).2.length =
      (l.filter (extractFails probe now)).length := by
  induction l with
  | nil => rfl
  | cons photo rest ih =>
    rcases hx : extractPhotoMetadata probe now photo.originalUrl with _ | _ <;>
      simp [processPhotosLoop, extractFails, hx, ih]

theorem processPhotosLoop_snd_urls (probe : Probe) (now : String) (nowMs : Nat)
    (l : List ValidatedPhoto) :
    (processPhotosLoop probe now nowMs l).2.map (fun e => e.url) =
      (l.filter (extractFails probe now)).map (fun p => p.originalUrl) := by
  induction l with
  | nil => rfl
  | cons photo rest ih =>
    rcases hx : extractPhotoMetadata probe now photo.originalUrl with _ | _ <;>
      simp [processPhotosLoop, extractFails, hx, ih]

theorem processPhotosLoop_any_rec (probe : Probe) (now : String) (nowMs : Nat)
    (l : List ValidatedPhoto) :
    ((processPhotosLoop probe now nowMs l).1.any
      fun f => f.aiCompatible && decide (f.quality.score ≥ 60)) =
      l.any (photoRecommended probe now) := by
  induction l with
  | nil => rfl
  | cons photo rest ih =>
    rcases hx : extractPhotoMetadata probe now photo.originalUrl with ⟨md, q⟩ | ⟨e, m, u⟩ <;>
      simp [processPhotosLoop, photoRecommended, hx, ih, formatOnePhoto]

theorem filter_length_pos_eq_any {α : Type} (p : α → Bool) (l : List α) :
    decide (0 < (l.filter p).length) = l.any p := by
  induction l with
  | nil => rfl
  | cons a l ih =>
    by_cases h : p a <;> simp [h, ih]

theorem filter_length_split {α : Type} (p : α → Bool) (l : List α) :
    (l.filter p).length + (l.filter fun x => ! p x).length = l.length := by
  induction l with
  | nil => rfl
  | cons a l ih =>
    by_cases h : p a <;> simp [h] <;> omega

/-- C6: for a request with three validated photos of which exactly one
fails its accessibility probe, the other two are still processed:
`processedPhotos = 2`, `failedPhotos = 1`, the failure is recorded in the
separate error list, and `readyForAI` is computed only from the two
successful entries (true iff at least one of them is `aiCompatible` with
score at least 60). -/
theorem c6_per_photo_isolation (probe : Probe) (now : String) (nowMs : Nat)
    (photos : List ValidatedPhoto) (h3 : photos.length = 3)
    (h1 : (photos.filter (extractFails probe now)).length = 1) :
    ∃ formatted summary errs,
      formatPhotosForAI probe now nowMs photos =
        FormatPhotosResult.ok formatted summary (some errs) now
          (photos.any (photoRecommended probe now)) ∧
      summary.processedPhotos = 2 ∧
      summary.failedPhotos = 1 ∧
      formatted.length = 2 ∧
      errs.map (fun e => e.url) =
        (photos.filter (extractFails probe now)).map (fun p => p.originalUrl) ∧
      photos.any (photoRecommended probe now) =
        formatted.any (fun f => f.aiCompatible && decide (f.quality.score ≥ 60)) := by
  have hsnd : (processPhotosLoop probe now nowMs photos).2.length = 1 := by
    rw [processPhotosLoop_snd_length]
    exact h1
  have hfst : (processPhotosLoop probe now nowMs photos).1.length = 2 := by
    rw [processPhotosLoop_fst_length]
    have := filter_length_split (extractFails probe now) photos
    omega
  refine ⟨(processPhotosLoop probe now nowMs photos).1,
    summarizePhotos photos.length (processPhotosLoop probe now nowMs photos).1
      (processPhotosLoop probe now nowMs photos).2,
    (processPhotosLoop probe now nowMs photos).2, ?_, ?_, ?_, hfst, ?_, ?_⟩
  · unfold formatPhotosForAI
    rw [if_neg (by omega)]
    simp only []
    rw [hsnd]
    rw [if_pos (by omega : 1 > 0)]
    congr 1
    show decide ((summarizePhotos photos.length (processPhotosLoop probe now nowMs photos).1
      (processPhotosLoop probe now nowMs photos).2).recommendedForAnalysis > 0) =
      photos.any (photoRecommended probe now)
    simp only [summarizePhotos]
    rw [filter_length_pos_eq_any, processPhotosLoop_any_rec]
  · show (summarizePhotos _ _ _).processedPhotos = 2
    simp only [summarizePhotos]
    exact hfst
  · show (summarizePhotos _ _ _).failedPhotos = 1
    simp only [summarizePhotos]
    exact hsnd
  · exact processPhotosLoop_snd_urls probe now nowMs photos
  · rw [processPhotosLoop_any_rec]

theorem processPhotosLoop_all_failed (probe : Probe) (now : String) (nowMs : Nat)
    (l : List ValidatedPhoto) (hall : ∀ p ∈ l, extractFails probe now p = true) :
    (processPhotosLoop probe now nowMs l).1 = [] ∧
    (processPhotosLoop probe now nowMs l).2.length = l.length := by
  induction l with
  | nil => exact ⟨rfl, rfl⟩
  | cons photo rest ih =>
    have hfail := hall photo (List.mem_cons_self photo rest)
    unfold extractFails at hfail
    rcases hx : extractPhotoMetadata probe now photo.originalUrl with ⟨md, q⟩ | ⟨e, m, u⟩
    · rw [hx] at hfail
      simp at hfail
    · obtain ⟨ih1, ih2⟩ := ih fun p hp => hall p (List.mem_cons_of_mem photo hp)
      simp [processPhotosLoop, hx, ih1, ih2]

/-- C10: when every photo of a non-empty list fails its probe,
`formatPhotosForAI` still returns the success shape with
`averageQuality = 0` (the guarded ternary, not a division by zero),
`recommendedForAnalysis = 0` and `readyForAI = false`. -/
theorem c10_all_failed_summary (probe : Probe) (now : String) (nowMs : Nat)
    (photos : List ValidatedPhoto) (hne : photos ≠ [])
    (hall : ∀ p ∈ photos, extractFails probe now p = true) :
    ∃ errs, formatPhotosForAI probe now nowMs photos =
      FormatPhotosResult.ok []
        { totalPhotos := photos.length, processedPhotos := 0,
          failedPhotos := photos.length, aiCompatiblePhotos := 0,
          averageQuality := 0, recommendedForAnalysis := 0 }
        (some errs) now false ∧
      errs.length = photos.length := by
  obtain ⟨h1, h2⟩ := processPhotosLoop_all_failed probe now nowMs photos hall
  have hlen : photos.length ≠ 0 := by
    intro h
    exact hne (List.length_eq_zero.mp h)
  refine ⟨(processPhotosLoop probe now nowMs photos).2, ?_, h2⟩
  unfold formatPhotosForAI
  rw [if_neg hlen]
  simp only []
  rw [h2, if_pos (by omega : photos.length > 0)]
  rw [h1]
  simp [summarizePhotos, h2]

def c6Probe : Probe := fun u =>
  if u = "https://cdn.example.com/b.jpg" then HttpOutcome.econnaborted
  else
    HttpOutcome.resp
      { contentType := some "image/jpeg", contentLength := some "2000000",
        lastModified := none, etag := none }

def c6Photos : List ValidatedPhoto :=
  [ { originalUrl := "https://cdn.example.com/a.jpg", index := 0, format := "JPEG" },
    { originalUrl := "https://cdn.example.com/b.jpg", index := 1, format := "JPEG" },
    { originalUrl := "https://cdn.example.com/c.jpg", index := 2, format := "JPEG" } ]

/-- C6 witness: three concrete photos against a probe that times out on
exactly the second one. -/
theorem c6_per_photo_isolation_witness :
    c6Photos.length = 3 ∧
    (c6Photos.filter (extractFails c6Probe "t")).length = 1 ∧
    (∃ formatted summary errs,
      formatPhotosForAI c6Probe "t" 5 c6Photos =
        FormatPhotosResult.ok formatted summary (some errs) "t"
          (c6Photos.any (photoRecommended c6Probe "t")) ∧
      summary.processedPhotos = 2 ∧
      summary.failedPhotos = 1 ∧
      formatted.length = 2 ∧
      errs.map (fun e => e.url) =
        (c6Photos.filter (extractFails c6Probe "t")).map (fun p => p.originalUrl) ∧
      c6Photos.any (photoRecommended c6Probe "t") =
        formatted.any (fun f => f.aiCompatible && decide (f.quality.score ≥ 60))) :=
  ⟨rfl, by decide, c6_per_photo_isolation c6Probe "t" 5 c6Photos rfl (by decide)⟩

def c10Probe : Probe := fun _ => HttpOutcome.econnaborted

def c10Photos : List ValidatedPhoto :=
  [ { originalUrl := "https://cdn.example.com/a.jpg", index := 0, format := "JPEG" } ]

/-- C10 witness: a concrete photo list whose probe always times out. -/
theorem c10_all_failed_summary_witness :
    c10Photos ≠ [] ∧
    (∀ p ∈ c10Photos, extractFails c10Probe "t" p = true) ∧
    (∃ errs, formatPhotosForAI c10Probe "t" 5 c10Photos =
      FormatPhotosResult.ok []
        { totalPhotos := c10Photos.length, processedPhotos := 0,
          failedPhotos := c10Photos.length, aiCompatiblePhotos := 0,
          averageQuality := 0, recommendedForAnalysis := 0 }
        (some errs) "t" false ∧
      errs.length = c10Photos.length) :=
  ⟨by simp [c10Photos], fun p _ => rfl,
   c10_all_failed_summary c10Probe "t" 5 c10Photos (by simp [c10Photos]) fun p _ => rfl⟩
